import Mathlib

/-!
PathsDisplay (rviz_legged_plugins): a shallow embedding.

The display of `paths_display.cpp` is embedded as a record of its property
values and of the scene objects it owns.  Every operation of the host
libraries (Ogre, rviz_common, rviz_rendering, the frame manager) that the code
calls and that is not part of the repository is a field of `Host`; floating
point numbers are elements of two uninterpreted types, `D` (the `double` of the
messages) and `F` (the `float` of the rendering engine), and the 4x4 matrix of
the rendering engine is an uninterpreted type `M`.  `context_->queueRender()`
and the alpha blending flag of the material have no effect on the data
modelled here and are left out.
-/

set_option linter.dupNamespace false

namespace RvizLegged

/-! ## Messages -/

/-- The std_msgs Header. -/
structure Header where
  stamp_sec : Int
  stamp_nanosec : Nat
  frame_id : String
deriving DecidableEq, Repr

/-- The geometry_msgs Point. -/
structure Point (D : Type) where
  x : D
  y : D
  z : D
deriving DecidableEq, Repr

/-- The geometry_msgs Quaternion. -/
structure QuaternionMsg (D : Type) where
  x : D
  y : D
  z : D
  w : D
deriving DecidableEq, Repr

/-- The geometry_msgs Pose. -/
structure Pose (D : Type) where
  position : Point D
  orientation : QuaternionMsg D
deriving DecidableEq, Repr

/-- The geometry_msgs PoseStamped. -/
structure PoseStamped (D : Type) where
  header : Header
  pose : Pose D
deriving DecidableEq, Repr

/-- The nav_msgs Path. -/
structure Path (D : Type) where
  header : Header
  poses : List (PoseStamped D)
deriving DecidableEq, Repr

/-- The rviz_legged_msgs Paths message, as `processMessage` reads it: a header and a vector of paths. -/
structure Paths (D : Type) where
  header : Header
  paths : List (Path D)
deriving DecidableEq, Repr

/-! ## Values of the rendering engine -/

/-- Ogre Vector3. -/
structure Vector3 (F : Type) where
  x : F
  y : F
  z : F
deriving DecidableEq, Repr

/-- Ogre Quaternion. -/
structure Quaternion (F : Type) where
  w : F
  x : F
  y : F
  z : F
deriving DecidableEq, Repr

/-- Ogre ColourValue. -/
structure ColourValue (F : Type) where
  r : F
  g : F
  b : F
  a : F
deriving DecidableEq, Repr

/-- QColor, as the constructor builds it from three integers. -/
structure QColor where
  red : Nat
  green : Nat
  blue : Nat
deriving DecidableEq, Repr

/-- The operations of the host libraries used by the display. -/
structure Host (D F M : Type) where
  /-- rviz_common validateFloats on the poses of a path. -/
  validateFloatsPoses : List (PoseStamped D) → Bool
  /-- FrameManager getTransform: the position and orientation when the lookup succeeds. -/
  getTransform : Header → Option (Vector3 F × Quaternion F)
  /-- rviz_common pointMsgToOgre. -/
  pointMsgToOgre : Point D → Vector3 F
  /-- rviz_common quaternionMsgToOgre. -/
  quaternionMsgToOgre : QuaternionMsg D → Quaternion F
  /-- The Matrix4 constructor from a quaternion. -/
  matrixOfQuaternion : Quaternion F → M
  /-- Matrix4 setTrans. -/
  setTrans : M → Vector3 F → M
  /-- Matrix4 times Vector3. -/
  mulMV : M → Vector3 F → Vector3 F
  /-- Matrix4 linear, converted to a quaternion. -/
  linearQuaternion : M → Quaternion F
  /-- Quaternion times Quaternion. -/
  mulQQ : Quaternion F → Quaternion F → Quaternion F
  /-- Quaternion times Vector3. -/
  mulQV : Quaternion F → Vector3 F → Vector3 F
  /-- ColorProperty getOgreColor. -/
  getOgreColor : QColor → ColourValue F
  /-- QColor redF. -/
  redF : QColor → F
  /-- QColor greenF. -/
  greenF : QColor → F
  /-- QColor blueF. -/
  blueF : QColor → F
  /-- The float denoted by the decimal literal num / den. -/
  lit : Nat → Nat → F

/-! ## Scene objects -/

/-- A vertex of a manual object: its position and, once given, its colour. -/
structure Vertex (F : Type) where
  position : Vector3 F
  colour : Option (ColourValue F)
deriving DecidableEq, Repr

/-- Ogre ManualObject, reduced to its vertices. -/
structure ManualObject (F : Type) where
  dynamic : Bool
  vertices : List (Vertex F)
deriving DecidableEq, Repr

/-- The manual object made by `createManualObject` followed by `setDynamic(true)`. -/
def ManualObject.create {F : Type} : ManualObject F :=
  { dynamic := true, vertices := [] }

/-- ManualObject clear. -/
def ManualObject.clear {F : Type} (m : ManualObject F) : ManualObject F :=
  { m with vertices := [] }

/-- ManualObject position: starts a new vertex. -/
def ManualObject.position {F : Type} (m : ManualObject F) (v : Vector3 F) : ManualObject F :=
  { m with vertices := m.vertices ++ [{ position := v, colour := none }] }

/-- ManualObject colour: colours the vertex started last. -/
def ManualObject.colour {F : Type} (m : ManualObject F) (c : ColourValue F) : ManualObject F :=
  match m.vertices.getLast? with
  | none => m
  | some v => { m with vertices := m.vertices.dropLast ++ [{ v with colour := some c }] }

/-- A point of a billboard line. -/
structure BillboardPoint (F : Type) where
  position : Vector3 F
  colour : ColourValue F
deriving DecidableEq, Repr

/-- The rviz_rendering BillboardLine; a setting is `none` until the display sets it. -/
structure BillboardLine (F : Type) where
  num_lines : Option Nat
  max_points_per_line : Option Nat
  line_width : Option F
  points : List (BillboardPoint F)
deriving DecidableEq, Repr

/-- A new billboard line. -/
def BillboardLine.create {F : Type} : BillboardLine F :=
  { num_lines := none, max_points_per_line := none, line_width := none, points := [] }

/-- BillboardLine clear. -/
def BillboardLine.clear {F : Type} (b : BillboardLine F) : BillboardLine F :=
  { b with points := [] }

/-- BillboardLine addPoint. -/
def BillboardLine.addPoint {F : Type} (b : BillboardLine F) (v : Vector3 F) (c : ColourValue F) :
    BillboardLine F :=
  { b with points := b.points ++ [{ position := v, colour := c }] }

/-- The rviz_rendering Axes; position and orientation are `none` until the display sets them. -/
structure Axes (F : Type) where
  length : F
  radius : F
  position : Option (Vector3 F)
  orientation : Option (Quaternion F)
deriving DecidableEq, Repr

/-- The rviz_rendering Arrow; a setting is `none` until the display sets it.
`geometry` is (shaft length, shaft diameter, head length, head diameter). -/
structure Arrow (F : Type) where
  color : Option (F × F × F × F)
  geometry : Option (F × F × F × F)
  position : Option (Vector3 F)
  direction : Option (Vector3 F)
deriving DecidableEq, Repr

/-- A new arrow. -/
def Arrow.create {F : Type} : Arrow F :=
  { color := none, geometry := none, position := none, direction := none }

/-! ## Properties and status -/

/-- A property of the inspector panel: its value and whether it is shown. -/
structure Property (α : Type) where
  value : α
  visible : Bool
deriving DecidableEq, Repr

/-- Property hide. -/
def Property.hide {α : Type} (p : Property α) : Property α := { p with visible := false }

/-- Property show. -/
def Property.show_ {α : Type} (p : Property α) : Property α := { p with visible := true }

/-- StatusProperty level. -/
inductive StatusLevel where
  | Ok
  | Warn
  | Error
deriving DecidableEq, Repr

/-- The transform status kept by the display base class. -/
inductive TransformStatus where
  | TransformOk
  | MissingTransformToFixedFrame (frame_id : String)
deriving DecidableEq, Repr

/-! ## Enumerators and machine integers -/

/-- Modelled from the spec: the enumerators of LineStyle are declared in paths_display.hpp,
which is not among the sources; they are numbered in the order in which the constructor
registers the options "Lines" and "Billboards". -/
def LINES : Int := 0

/-- Modelled from the spec: second enumerator of LineStyle (see `LINES`). -/
def BILLBOARDS : Int := 1

/-- Modelled from the spec: the enumerators of PoseStyle are declared in paths_display.hpp,
which is not among the sources; they are numbered in the order in which the constructor
registers the options "None", "Axes" and "Arrows". -/
def NONE : Int := 0

/-- Modelled from the spec: second enumerator of PoseStyle (see `NONE`). -/
def AXES : Int := 1

/-- Modelled from the spec: third enumerator of PoseStyle (see `NONE`). -/
def ARROWS : Int := 2

/-- Conversion of an `int` to `size_t` (64 bits). -/
def toSizeT (i : Int) : Nat := (i % 2 ^ 64).toNat

/-- Conversion of a `size_t` to `int` (32 bits, two's complement). -/
def toInt32 (n : Nat) : Int :=
  if n % 2 ^ 32 < 2 ^ 31 then ((n % 2 ^ 32 : Nat) : Int) else ((n % 2 ^ 32 : Nat) : Int) - 2 ^ 32

/-- Conversion of a `size_t` to `uint32_t`. -/
def toUInt32 (n : Nat) : Nat := n % 2 ^ 32

/-- The vector `resize` of the C++ library, new entries being value-initialised to `d`. -/
def resize {α : Type} (xs : List α) (n : Nat) (d : α) : List α :=
  xs.take n ++ List.replicate (n - xs.length) d

/-! ## The display -/

/-- The state of a PathsDisplay. -/
structure PathsDisplay (F : Type) where
  style_property_ : Property Int
  line_width_property_ : Property F
  color_property_ : Property QColor
  alpha_property_ : Property F
  buffer_length_property_ : Property Int
  offset_property_ : Property (Vector3 F)
  pose_style_property_ : Property Int
  pose_axes_length_property_ : Property F
  pose_axes_radius_property_ : Property F
  pose_arrow_color_property_ : Property QColor
  pose_arrow_shaft_length_property_ : Property F
  pose_arrow_head_length_property_ : Property F
  pose_arrow_shaft_diameter_property_ : Property F
  pose_arrow_head_diameter_property_ : Property F
  number_paths_ : Int
  manual_objects_ : List (ManualObject F)
  billboard_lines_ : List (BillboardLine F)
  axes_chain_ : List (List (Axes F))
  arrow_chain_ : List (List (Arrow F))
  /-- The status named "Topic". -/
  topic_status : Option (StatusLevel × String)
  /-- The status set by setTransformOk and setMissingTransformToFixedFrame. -/
  transform_status : Option TransformStatus
deriving DecidableEq, Repr

section Operations

variable {D F M : Type}

/-- The default constructor `PathsDisplay()`.  The initial value of `number_paths_` is given
in paths_display.hpp, which is not among the sources, and is a parameter.  The minimum 1 that
the constructor sets on "Buffer Length" appears as a hypothesis where it is needed. -/
def PathsDisplay.PathsDisplay (h : Host D F M) (number_paths_init : Int) : PathsDisplay F :=
  { style_property_ := { value := LINES, visible := true }
    line_width_property_ := Property.hide { value := h.lit 3 100, visible := true }
    color_property_ := { value := { red := 25, green := 255, blue := 0 }, visible := true }
    alpha_property_ := { value := h.lit 1 1, visible := true }
    buffer_length_property_ := { value := 1, visible := true }
    offset_property_ := { value := { x := h.lit 0 1, y := h.lit 0 1, z := h.lit 0 1 }, visible := true }
    pose_style_property_ := { value := NONE, visible := true }
    pose_axes_length_property_ := Property.hide { value := h.lit 3 10, visible := true }
    pose_axes_radius_property_ := Property.hide { value := h.lit 3 100, visible := true }
    pose_arrow_color_property_ :=
      Property.hide { value := { red := 255, green := 85, blue := 255 }, visible := true }
    pose_arrow_shaft_length_property_ := Property.hide { value := h.lit 1 10, visible := true }
    pose_arrow_head_length_property_ := Property.hide { value := h.lit 2 10, visible := true }
    pose_arrow_shaft_diameter_property_ := Property.hide { value := h.lit 1 10, visible := true }
    pose_arrow_head_diameter_property_ := Property.hide { value := h.lit 3 10, visible := true }
    number_paths_ := number_paths_init
    manual_objects_ := []
    billboard_lines_ := []
    axes_chain_ := []
    arrow_chain_ := []
    topic_status := none
    transform_status := none }

/-- PathsDisplay::allocateAxesVector: grow the vector with new axes up to `num`, or cut it to `num`. -/
def allocateAxesVector (s : PathsDisplay F) (axes_vect : List (Axes F)) (num : Nat) : List (Axes F) :=
  let vector_size := axes_vect.length
  if num > vector_size then
    axes_vect ++ List.replicate (num - vector_size)
      { length := s.pose_axes_length_property_.value
        radius := s.pose_axes_radius_property_.value
        position := none
        orientation := none }
  else if num < vector_size then
    axes_vect.take num
  else
    axes_vect

/-- PathsDisplay::allocateArrowVector: grow the vector with new arrows up to `num`, or cut it to `num`. -/
def allocateArrowVector (arrow_vect : List (Arrow F)) (num : Nat) : List (Arrow F) :=
  let vector_size := arrow_vect.length
  if num > vector_size then
    arrow_vect ++ List.replicate (num - vector_size) Arrow.create
  else if num < vector_size then
    arrow_vect.take num
  else
    arrow_vect

/-- PathsDisplay::destroyPoseAxesChain: every vector of the chain is cut to length 0, then the
chain is cleared. -/
def destroyPoseAxesChain (s : PathsDisplay F) : PathsDisplay F :=
  let s := { s with axes_chain_ := s.axes_chain_.map (fun axes_vect => allocateAxesVector s axes_vect 0) }
  { s with axes_chain_ := [] }

/-- PathsDisplay::destroyPoseArrowChain: every vector of the chain is cut to length 0, then the
chain is cleared. -/
def destroyPoseArrowChain (s : PathsDisplay F) : PathsDisplay F :=
  let s := { s with arrow_chain_ := s.arrow_chain_.map (fun arrow_vect => allocateArrowVector arrow_vect 0) }
  { s with arrow_chain_ := [] }

/-- PathsDisplay::destroyObjects: the manual objects are cleared and destroyed, both vectors
are cleared. -/
def destroyObjects (s : PathsDisplay F) : PathsDisplay F :=
  let s := { s with manual_objects_ := s.manual_objects_.map ManualObject.clear }
  let s := { s with manual_objects_ := [] }
  { s with billboard_lines_ := [] }

/-- PathsDisplay::updateBufferLength. -/
def updateBufferLength (s : PathsDisplay F) : PathsDisplay F :=
  let s := destroyObjects s
  let s := destroyPoseAxesChain s
  let s := destroyPoseArrowChain s
  let buffer_length := (toSizeT s.number_paths_ * toSizeT s.buffer_length_property_.value) % 2 ^ 64
  let style := s.style_property_.value
  let s :=
    if style = LINES then
      { s with manual_objects_ := s.manual_objects_ ++ List.replicate buffer_length ManualObject.create }
    else if style = BILLBOARDS then
      { s with billboard_lines_ := s.billboard_lines_ ++ List.replicate buffer_length BillboardLine.create }
    else
      s
  let s := { s with axes_chain_ := resize s.axes_chain_ buffer_length [] }
  { s with arrow_chain_ := resize s.arrow_chain_ buffer_length [] }

/-- PathsDisplay::updateStyle. -/
def updateStyle (s : PathsDisplay F) : PathsDisplay F :=
  let style := s.style_property_.value
  let s :=
    if style = BILLBOARDS then
      { s with line_width_property_ := s.line_width_property_.show_ }
    else
      { s with line_width_property_ := s.line_width_property_.hide }
  updateBufferLength s

/-- PathsDisplay::updatePoseStyle. -/
def updatePoseStyle (s : PathsDisplay F) : PathsDisplay F :=
  let pose_style := s.pose_style_property_.value
  let s :=
    if pose_style = AXES then
      { s with
        pose_axes_length_property_ := s.pose_axes_length_property_.show_
        pose_axes_radius_property_ := s.pose_axes_radius_property_.show_
        pose_arrow_color_property_ := s.pose_arrow_color_property_.hide
        pose_arrow_shaft_length_property_ := s.pose_arrow_shaft_length_property_.hide
        pose_arrow_head_length_property_ := s.pose_arrow_head_length_property_.hide
        pose_arrow_shaft_diameter_property_ := s.pose_arrow_shaft_diameter_property_.hide
        pose_arrow_head_diameter_property_ := s.pose_arrow_head_diameter_property_.hide }
    else if pose_style = ARROWS then
      { s with
        pose_axes_length_property_ := s.pose_axes_length_property_.hide
        pose_axes_radius_property_ := s.pose_axes_radius_property_.hide
        pose_arrow_color_property_ := s.pose_arrow_color_property_.show_
        pose_arrow_shaft_length_property_ := s.pose_arrow_shaft_length_property_.show_
        pose_arrow_head_length_property_ := s.pose_arrow_head_length_property_.show_
        pose_arrow_shaft_diameter_property_ := s.pose_arrow_shaft_diameter_property_.show_
        pose_arrow_head_diameter_property_ := s.pose_arrow_head_diameter_property_.show_ }
    else
      { s with
        pose_axes_length_property_ := s.pose_axes_length_property_.hide
        pose_axes_radius_property_ := s.pose_axes_radius_property_.hide
        pose_arrow_color_property_ := s.pose_arrow_color_property_.hide
        pose_arrow_shaft_length_property_ := s.pose_arrow_shaft_length_property_.hide
        pose_arrow_head_length_property_ := s.pose_arrow_head_length_property_.hide
        pose_arrow_shaft_diameter_property_ := s.pose_arrow_shaft_diameter_property_.hide
        pose_arrow_head_diameter_property_ := s.pose_arrow_head_diameter_property_.hide }
  updateBufferLength s

/-- The file-local validateFloats of a path. -/
def validateFloats (h : Host D F M) (msg : Path D) : Bool :=
  let valid := true
  let valid := valid && h.validateFloatsPoses msg.poses
  valid

/-- PathsDisplay::updateManualObject.  The calls estimateVertexCount, begin and end delimit
the line strip and leave the vertices as they are. -/
def updateManualObject (h : Host D F M) (s : PathsDisplay F) (manual_object : ManualObject F)
    (msg : Path D) (transform : M) : ManualObject F :=
  let color := h.getOgreColor s.color_property_.value
  let color := { color with a := s.alpha_property_.value }
  msg.poses.foldl
    (fun manual_object pose_stamped =>
      let manual_object :=
        manual_object.position (h.mulMV transform (h.pointMsgToOgre pose_stamped.pose.position))
      manual_object.colour color)
    manual_object

/-- PathsDisplay::updateBillBoardLine. -/
def updateBillBoardLine (h : Host D F M) (s : PathsDisplay F) (billboard_line : BillboardLine F)
    (msg : Path D) (transform : M) : BillboardLine F :=
  let color := h.getOgreColor s.color_property_.value
  let color := { color with a := s.alpha_property_.value }
  let billboard_line := { billboard_line with num_lines := some 1 }
  let billboard_line :=
    { billboard_line with max_points_per_line := some (toUInt32 msg.poses.length) }
  let billboard_line := { billboard_line with line_width := some s.line_width_property_.value }
  msg.poses.foldl
    (fun billboard_line pose_stamped =>
      let xpos := h.mulMV transform (h.pointMsgToOgre pose_stamped.pose.position)
      billboard_line.addPoint xpos color)
    billboard_line

/-- The loop `for (size_t i = 0; i < n; ++i)` over a state. -/
def forRange {σ : Type} (n : Nat) (body : Nat → σ → σ) (init : σ) : σ :=
  (List.range n).foldl (fun st i => body i st) init

/-- The loop `for (size_t i = 0; i < num_points; ++i)` of the marker updates: at each index
the marker `vect[i]` is updated from `msg.poses[i]` by `body`. -/
def updateEach {α β : Type} (body : α → β → α) (poses : List β) (vect : List α) : List α :=
  forRange poses.length
    (fun i vect =>
      match vect[i]?, poses[i]? with
      | some marker, some pose_stamped => vect.set i (body marker pose_stamped)
      | _, _ => vect)
    vect

/-- The body of the loop of updateAxesMarkers, on the axes `axes_vect[i]` and `msg.poses[i]`. -/
def setAxesPose (h : Host D F M) (transform : M) (axes : Axes F) (pose_stamped : PoseStamped D) :
    Axes F :=
  let pos := pose_stamped.pose.position
  let axes := { axes with position := some (h.mulMV transform (h.pointMsgToOgre pos)) }
  let orientation := h.quaternionMsgToOgre pose_stamped.pose.orientation
  let transform_orientation := h.linearQuaternion transform
  { axes with orientation := some (h.mulQQ transform_orientation orientation) }

/-- PathsDisplay::updateAxesMarkers. -/
def updateAxesMarkers (h : Host D F M) (s : PathsDisplay F) (axes_vect : List (Axes F))
    (msg : Path D) (transform : M) : List (Axes F) :=
  let num_points := msg.poses.length
  let axes_vect := allocateAxesVector s axes_vect num_points
  updateEach (setAxesPose h transform) msg.poses axes_vect

/-- The body of the loop of updateArrowMarkers, on the arrow `arrow_vect[i]` and `msg.poses[i]`. -/
def setArrowPose (h : Host D F M) (s : PathsDisplay F) (transform : M) (arrow : Arrow F)
    (pose_stamped : PoseStamped D) : Arrow F :=
  let color := s.pose_arrow_color_property_.value
  let arrow :=
    { arrow with color := some (h.redF color, h.greenF color, h.blueF color, h.lit 1 1) }
  let arrow :=
    { arrow with
      geometry := some (s.pose_arrow_shaft_length_property_.value,
        s.pose_arrow_shaft_diameter_property_.value,
        s.pose_arrow_head_length_property_.value,
        s.pose_arrow_head_diameter_property_.value) }
  let pos := pose_stamped.pose.position
  let arrow := { arrow with position := some (h.mulMV transform (h.pointMsgToOgre pos)) }
  let orientation := h.quaternionMsgToOgre pose_stamped.pose.orientation
  let transform_orientation := h.linearQuaternion transform
  let dir : Vector3 F := { x := h.lit 1 1, y := h.lit 0 1, z := h.lit 0 1 }
  let dir := h.mulQV (h.mulQQ transform_orientation orientation) dir
  { arrow with direction := some dir }

/-- PathsDisplay::updateArrowMarkers. -/
def updateArrowMarkers (h : Host D F M) (s : PathsDisplay F) (arrow_vect : List (Arrow F))
    (msg : Path D) (transform : M) : List (Arrow F) :=
  let num_points := msg.poses.length
  let arrow_vect := allocateArrowVector arrow_vect num_points
  updateEach (setArrowPose h s transform) msg.poses arrow_vect

/-- PathsDisplay::updatePoseMarkers; `none` when `buffer_index` is outside one of the chains. -/
def updatePoseMarkers (h : Host D F M) (buffer_index : Nat) (msg : Path D) (transform : M)
    (s : PathsDisplay F) : Option (PathsDisplay F) :=
  let pose_style := s.pose_style_property_.value
  match s.arrow_chain_[buffer_index]?, s.axes_chain_[buffer_index]? with
  | some arrow_vect, some axes_vect =>
    let s :=
      if pose_style = AXES then
        { s with
          axes_chain_ :=
            s.axes_chain_.set buffer_index (updateAxesMarkers h s axes_vect msg transform) }
      else
        s
    let s :=
      if pose_style = ARROWS then
        { s with
          arrow_chain_ :=
            s.arrow_chain_.set buffer_index (updateArrowMarkers h s arrow_vect msg transform) }
      else
        s
    some s
  | _, _ => none

/-- How the body of the loop of processMessage ends. -/
inductive Flow (σ : Type) where
  /-- The body ran to its end. -/
  | next (s : σ)
  /-- The body executed `return`. -/
  | ret (s : σ)

/-- The first switch of the loop body ("Delete oldest element"): the object at index `i` is
cleared; `none` when `i` is outside the vector of the selected style. -/
def clearObject (i : Nat) (s : PathsDisplay F) : Option (PathsDisplay F) :=
  let style := s.style_property_.value
  if style = LINES then
    match s.manual_objects_[i]? with
    | some manual_object =>
      some { s with manual_objects_ := s.manual_objects_.set i manual_object.clear }
    | none => none
  else if style = BILLBOARDS then
    match s.billboard_lines_[i]? with
    | some billboard_line =>
      some { s with billboard_lines_ := s.billboard_lines_.set i billboard_line.clear }
    | none => none
  else
    some s

/-- The second switch of the loop body: the object at index `i` receives the path. -/
def drawObject (h : Host D F M) (i : Nat) (path_msg : Path D) (transform : M)
    (s : PathsDisplay F) : PathsDisplay F :=
  let style := s.style_property_.value
  if style = LINES then
    match s.manual_objects_[i]? with
    | some manual_object =>
      { s with
        manual_objects_ :=
          s.manual_objects_.set i (updateManualObject h s manual_object path_msg transform) }
    | none => s
  else if style = BILLBOARDS then
    match s.billboard_lines_[i]? with
    | some billboard_line =>
      { s with
        billboard_lines_ :=
          s.billboard_lines_.set i (updateBillBoardLine h s billboard_line path_msg transform) }
    | none => s
  else
    s

/-- The body of the loop of PathsDisplay::processMessage at index `i`; `none` when an index is
outside its vector. -/
def processPath (h : Host D F M) (msg : Paths D) (i : Nat) (s : PathsDisplay F) :
    Option (Flow (PathsDisplay F)) :=
  match msg.paths[i]? with
  | none => none
  | some path_msg =>
    match clearObject i s with
    | none => none
    | some s =>
      if !validateFloats h path_msg then
        some (Flow.ret { s with
          topic_status :=
            some (StatusLevel.Error, "Message contained invalid floating point values (nans or infs)") })
      else
        match h.getTransform msg.header with
        | none =>
          some (Flow.ret { s with
            transform_status :=
              some (TransformStatus.MissingTransformToFixedFrame msg.header.frame_id) })
        | some (position, orientation) =>
          let s := { s with transform_status := some TransformStatus.TransformOk }
          let transform := h.setTrans (h.matrixOfQuaternion orientation) position
          let s := drawObject h i path_msg transform s
          match updatePoseMarkers h i path_msg transform s with
          | none => none
          | some s => some (Flow.next s)

/-- The loop `for (int i = 0; i < number_paths_; i++)` of processMessage, with `todo`
iterations left from index `i`. -/
def processLoop (h : Host D F M) (msg : Paths D) : Nat → Nat → PathsDisplay F → Option (PathsDisplay F)
  | 0, _, s => some s
  | todo + 1, i, s =>
    match processPath h msg i s with
    | none => none
    | some (Flow.ret s) => some s
    | some (Flow.next s) => processLoop h msg todo (i + 1) s

/-- PathsDisplay::processMessage; `none` when an index is outside its vector. -/
def processMessage (h : Host D F M) (msg : Paths D) (s : PathsDisplay F) : Option (PathsDisplay F) :=
  let s := { s with number_paths_ := toInt32 msg.paths.length }
  let s := updateBufferLength s
  processLoop h msg s.number_paths_.toNat 0 s

end Operations

/-! ## A host over the integers, to run the model on examples -/

/-- A transform of the integer host: a rotation and a translation. -/
structure IntTransform where
  rotation : Quaternion Int
  translation : Vector3 Int
deriving DecidableEq, Repr

/-- The Hamilton product. -/
def quatMul (p q : Quaternion Int) : Quaternion Int :=
  { w := p.w * q.w - p.x * q.x - p.y * q.y - p.z * q.z
    x := p.w * q.x + p.x * q.w + p.y * q.z - p.z * q.y
    y := p.w * q.y + p.y * q.w + p.z * q.x - p.x * q.z
    z := p.w * q.z + p.z * q.w + p.x * q.y - p.y * q.x }

/-- The cross product. -/
def cross (u v : Vector3 Int) : Vector3 Int :=
  { x := u.y * v.z - u.z * v.y, y := u.z * v.x - u.x * v.z, z := u.x * v.y - u.y * v.x }

/-- Rotation of a vector by a unit quaternion. -/
def quatRotate (q : Quaternion Int) (v : Vector3 Int) : Vector3 Int :=
  let qvec : Vector3 Int := { x := q.x, y := q.y, z := q.z }
  let uv := cross qvec v
  let uuv := cross qvec uv
  { x := v.x + 2 * q.w * uv.x + 2 * uuv.x
    y := v.y + 2 * q.w * uv.y + 2 * uuv.y
    z := v.z + 2 * q.w * uv.z + 2 * uuv.z }

/-- A host whose numbers are integers.  Every frame but "nowhere" is a half turn about z
followed by the translation (10, 20, 30); a pose is valid unless a coordinate is 999. -/
def intHost : Host Int Int IntTransform :=
  { validateFloatsPoses := fun poses =>
      poses.all (fun p => p.pose.position.x != 999 && p.pose.position.y != 999
        && p.pose.position.z != 999)
    getTransform := fun header =>
      if header.frame_id = "nowhere" then none
      else some ({ x := 10, y := 20, z := 30 }, { w := 0, x := 0, y := 0, z := 1 })
    pointMsgToOgre := fun p => { x := p.x, y := p.y, z := p.z }
    quaternionMsgToOgre := fun q => { w := q.w, x := q.x, y := q.y, z := q.z }
    matrixOfQuaternion := fun q => { rotation := q, translation := { x := 0, y := 0, z := 0 } }
    setTrans := fun m t => { m with translation := t }
    mulMV := fun m v =>
      let r := quatRotate m.rotation v
      { x := r.x + m.translation.x, y := r.y + m.translation.y, z := r.z + m.translation.z }
    linearQuaternion := fun m => m.rotation
    mulQQ := quatMul
    mulQV := quatRotate
    getOgreColor := fun c => { r := c.red, g := c.green, b := c.blue, a := 255 }
    redF := fun c => c.red
    greenF := fun c => c.green
    blueF := fun c => c.blue
    lit := fun num den => num / den }

/-! ## Example inputs -/

/-- A header in the frame "base". -/
def exHeader : Header := { stamp_sec := 0, stamp_nanosec := 0, frame_id := "base" }

/-- A stamped pose at (x, y, z) with the identity orientation. -/
def exPose (x y z : Int) : PoseStamped Int :=
  { header := exHeader
    pose := { position := { x := x, y := y, z := z }
              orientation := { x := 0, y := 0, z := 0, w := 1 } } }

/-- A path of two poses, the second turned by a half turn about x. -/
def exPath : Path Int :=
  { header := exHeader
    poses := [exPose 0 1 0,
              { header := exHeader
                pose := { position := { x := 5, y := 5, z := 5 }
                          orientation := { x := 1, y := 0, z := 0, w := 0 } } }] }

/-- A transform of the integer host: a half turn about z, then the translation (10, 20, 30). -/
def exTransform : IntTransform :=
  { rotation := { w := 0, x := 0, y := 0, z := 1 }, translation := { x := 10, y := 20, z := 30 } }

/-- A message with one path of one pose. -/
def exMessage1 : Paths Int :=
  { header := exHeader, paths := [{ header := exHeader, poses := [exPose 1 0 0] }] }

/-- A message with one path of two poses. -/
def exMessage2 : Paths Int :=
  { header := exHeader, paths := [{ header := exHeader, poses := [exPose 0 1 0, exPose 5 5 5] }] }

/-- A message with three paths, the second of which has an invalid coordinate. -/
def exMessageInvalid : Paths Int :=
  { header := exHeader
    paths := [{ header := exHeader, poses := [exPose 1 0 0] },
              { header := exHeader, poses := [exPose 999 0 0] },
              { header := exHeader, poses := [exPose 2 0 0] }] }

/-- The message exMessage2 in a frame that the frame manager cannot look up. -/
def exMessageNowhere : Paths Int :=
  { exMessage2 with header := { exHeader with frame_id := "nowhere" } }

/-- A display with the given line style, pose style and buffer length. -/
def exDisplay (style pose_style buffer_length : Int) : PathsDisplay Int :=
  { PathsDisplay.PathsDisplay intHost 1 with
    style_property_ := { value := style, visible := true }
    pose_style_property_ := { value := pose_style, visible := true }
    buffer_length_property_ := { value := buffer_length, visible := true } }

end RvizLegged

namespace RvizLegged

/-! ## Definitions used to state the properties -/

section Statements

variable {D F M : Type}

/-- The value `buffer_length` computed by updateBufferLength: a product of two `size_t`. -/
def bufferLength (s : PathsDisplay F) : Nat :=
  (toSizeT s.number_paths_ * toSizeT s.buffer_length_property_.value) % 2 ^ 64

/-- The user selects the option `style` of "Line Style": the property takes the value and its
slot updateStyle runs. -/
def setLineStyle (s : PathsDisplay F) (style : Int) : PathsDisplay F :=
  updateStyle { s with style_property_ := { s.style_property_ with value := style } }

/-- One of the two axes properties (Length, Radius) is visible. -/
def axesGroupVisible (s : PathsDisplay F) : Bool :=
  s.pose_axes_length_property_.visible || s.pose_axes_radius_property_.visible

/-- One of the five arrow properties is visible. -/
def arrowGroupVisible (s : PathsDisplay F) : Bool :=
  s.pose_arrow_color_property_.visible || s.pose_arrow_shaft_length_property_.visible
    || s.pose_arrow_head_length_property_.visible
    || s.pose_arrow_shaft_diameter_property_.visible
    || s.pose_arrow_head_diameter_property_.visible

/-- The state of the display once processMessage has run updateBufferLength (which made `N`
objects) and drawn the first `i` paths of `msg` with the transform `T`. -/
def renderedState (h : Host D F M) (msg : Paths D) (T : M) (s : PathsDisplay F) (N i : Nat) :
    PathsDisplay F :=
  { s with
    number_paths_ := toInt32 msg.paths.length
    manual_objects_ :=
      if s.style_property_.value = LINES then
        (msg.paths.take i).map (fun p => updateManualObject h s ManualObject.create p T)
          ++ List.replicate (N - i) ManualObject.create
      else []
    billboard_lines_ :=
      if s.style_property_.value = BILLBOARDS then
        (msg.paths.take i).map (fun p => updateBillBoardLine h s BillboardLine.create p T)
          ++ List.replicate (N - i) BillboardLine.create
      else []
    axes_chain_ :=
      if s.pose_style_property_.value = AXES then
        (msg.paths.take i).map (fun p => updateAxesMarkers h s [] p T)
          ++ List.replicate (N - i) []
      else List.replicate N []
    arrow_chain_ :=
      if s.pose_style_property_.value = ARROWS then
        (msg.paths.take i).map (fun p => updateArrowMarkers h s [] p T)
          ++ List.replicate (N - i) []
      else List.replicate N []
    transform_status :=
      if i = 0 then s.transform_status else some TransformStatus.TransformOk }

/-- The transform that processMessage builds from the result of the lookup. -/
def transformOf (h : Host D F M) (position : Vector3 F) (orientation : Quaternion F) : M :=
  h.setTrans (h.matrixOfQuaternion orientation) position

/-- The text of the status set for a path with invalid floats. -/
def invalidFloatsText : String :=
  "Message contained invalid floating point values (nans or infs)"

end Statements

end RvizLegged

namespace RvizLegged

/-! ## Machine integers and lists -/

theorem toSizeT_of_nonneg {i : Int} (h0 : 0 ≤ i) (h1 : i < 2 ^ 31) : toSizeT i = i.toNat := by
  unfold toSizeT
  rw [Int.emod_eq_of_lt h0 (by omega)]

theorem toInt32_of_lt {n : Nat} (hn : n < 2 ^ 31) : toInt32 n = (n : Int) := by
  unfold toInt32
  have h1 : n % 2 ^ 32 = n := Nat.mod_eq_of_lt (by omega)
  rw [h1, if_pos hn]

theorem sizeProduct_eq {n k : Int} (hn0 : 0 ≤ n) (hn1 : n < 2 ^ 31) (hk0 : 0 ≤ k)
    (hk1 : k < 2 ^ 31) : (toSizeT n * toSizeT k) % 2 ^ 64 = n.toNat * k.toNat := by
  rw [toSizeT_of_nonneg hn0 hn1, toSizeT_of_nonneg hk0 hk1]
  apply Nat.mod_eq_of_lt
  have h1 : n.toNat < 2 ^ 31 := by omega
  have h2 : k.toNat < 2 ^ 31 := by omega
  calc n.toNat * k.toNat < 2 ^ 31 * 2 ^ 31 := Nat.mul_lt_mul'' h1 h2
    _ ≤ 2 ^ 64 := by norm_num

theorem getElem?_append_replicate {α : Type} (l : List α) (m : Nat) (c : α) (hm : 0 < m) :
    (l ++ List.replicate m c)[l.length]? = some c := by
  rw [List.getElem?_append_right (le_refl _)]
  simp [List.getElem?_replicate, hm]

theorem set_append_replicate {α : Type} (l : List α) (m : Nat) (c v : α) :
    (l ++ List.replicate (m + 1) c).set l.length v = (l ++ [v]) ++ List.replicate m c := by
  rw [List.set_append_right _ _ (le_refl _)]
  simp [List.replicate_succ]

/-! ## updateBufferLength -/

section BufferLength

variable {D F M : Type}

theorem LINES_ne_BILLBOARDS : LINES ≠ BILLBOARDS := by decide

theorem BILLBOARDS_ne_LINES : BILLBOARDS ≠ LINES := by decide

theorem AXES_ne_ARROWS : AXES ≠ ARROWS := by decide

theorem ARROWS_ne_AXES : ARROWS ≠ AXES := by decide

theorem updateBufferLength_eq (s : PathsDisplay F) :
    updateBufferLength s =
      { s with
        manual_objects_ :=
          if s.style_property_.value = LINES then
            List.replicate (bufferLength s) ManualObject.create
          else []
        billboard_lines_ :=
          if s.style_property_.value = BILLBOARDS then
            List.replicate (bufferLength s) BillboardLine.create
          else []
        axes_chain_ := List.replicate (bufferLength s) []
        arrow_chain_ := List.replicate (bufferLength s) [] } := by
  by_cases h1 : s.style_property_.value = LINES
  · have h2 : ¬ s.style_property_.value = BILLBOARDS := by
      rw [h1]; exact LINES_ne_BILLBOARDS
    simp [updateBufferLength, destroyObjects, destroyPoseAxesChain, destroyPoseArrowChain,
      bufferLength, resize, h1, LINES_ne_BILLBOARDS]
  · by_cases h2 : s.style_property_.value = BILLBOARDS
    · simp [updateBufferLength, destroyObjects, destroyPoseAxesChain, destroyPoseArrowChain,
        bufferLength, resize, h2, BILLBOARDS_ne_LINES]
    · simp [updateBufferLength, destroyObjects, destroyPoseAxesChain, destroyPoseArrowChain,
        bufferLength, resize, h1, h2]

/-- C2: after updateBufferLength the vector of the selected line style has
number_paths_ * (Buffer Length) objects and the vector of the other style is empty, and both
marker chains have that many entries, each an empty vector (number_paths_ and the buffer length
being non-negative values of an `int`). -/
theorem updateBufferLength_counts (s : PathsDisplay F)
    (hn0 : 0 ≤ s.number_paths_) (hn1 : s.number_paths_ < 2 ^ 31)
    (hk0 : 0 ≤ s.buffer_length_property_.value) (hk1 : s.buffer_length_property_.value < 2 ^ 31) :
    ((updateBufferLength s).style_property_.value = LINES →
        (((updateBufferLength s).manual_objects_.length : Int)
            = s.number_paths_ * s.buffer_length_property_.value
          ∧ (updateBufferLength s).billboard_lines_ = []))
    ∧ ((updateBufferLength s).style_property_.value = BILLBOARDS →
        (((updateBufferLength s).billboard_lines_.length : Int)
            = s.number_paths_ * s.buffer_length_property_.value
          ∧ (updateBufferLength s).manual_objects_ = []))
    ∧ ((updateBufferLength s).axes_chain_.length : Int)
        = s.number_paths_ * s.buffer_length_property_.value
    ∧ ((updateBufferLength s).arrow_chain_.length : Int)
        = s.number_paths_ * s.buffer_length_property_.value
    ∧ (∀ axes_vect ∈ (updateBufferLength s).axes_chain_, axes_vect = [])
    ∧ (∀ arrow_vect ∈ (updateBufferLength s).arrow_chain_, arrow_vect = []) := by
  have hN : ((bufferLength s : Nat) : Int) = s.number_paths_ * s.buffer_length_property_.value := by
    unfold bufferLength
    rw [sizeProduct_eq hn0 hn1 hk0 hk1]
    push_cast
    rw [Int.toNat_of_nonneg hn0, Int.toNat_of_nonneg hk0]
  rw [updateBufferLength_eq]
  refine ⟨?_, ?_, ?_, ?_, ?_, ?_⟩
  · intro h1
    have h1' : s.style_property_.value = LINES := h1
    have h2 : ¬ s.style_property_.value = BILLBOARDS := by
      rw [h1']; exact LINES_ne_BILLBOARDS
    simp [h1', LINES_ne_BILLBOARDS, hN]
  · intro h2
    have h2' : s.style_property_.value = BILLBOARDS := h2
    have h1 : ¬ s.style_property_.value = LINES := by
      rw [h2']; exact fun e => LINES_ne_BILLBOARDS e.symm
    simp [h2', BILLBOARDS_ne_LINES, hN]
  · simp [hN]
  · simp [hN]
  · intro v hv
    exact List.eq_of_mem_replicate hv
  · intro v hv
    exact List.eq_of_mem_replicate hv

/-- Witness of C2: three paths and a buffer length of 2, billboards. -/
theorem updateBufferLength_counts_witness :
    ((updateBufferLength
        { PathsDisplay.PathsDisplay intHost 3 with
          style_property_ := { value := BILLBOARDS, visible := true }
          buffer_length_property_ := { value := 2, visible := true } }).billboard_lines_.length : Int)
      = 3 * 2 :=
  (updateBufferLength_counts
      { PathsDisplay.PathsDisplay intHost 3 with
        style_property_ := { value := BILLBOARDS, visible := true }
        buffer_length_property_ := { value := 2, visible := true } }
      (by decide) (by decide) (by decide) (by decide)).2.1 (by rfl) |>.1

end BufferLength

/-! ## Visibility of the properties -/

section Visibility

variable {D F M : Type}

/-- C4: after updatePoseStyle, with the option AXES the two axes properties are visible and
the five arrow properties hidden; with ARROWS the five arrow properties are visible and the two
axes properties hidden; with any other option value all seven are hidden; the two groups are
never visible together. -/
theorem updatePoseStyle_visibility (s : PathsDisplay F) :
    (s.pose_style_property_.value = AXES →
        (updatePoseStyle s).pose_axes_length_property_.visible = true
        ∧ (updatePoseStyle s).pose_axes_radius_property_.visible = true
        ∧ (updatePoseStyle s).pose_arrow_color_property_.visible = false
        ∧ (updatePoseStyle s).pose_arrow_shaft_length_property_.visible = false
        ∧ (updatePoseStyle s).pose_arrow_head_length_property_.visible = false
        ∧ (updatePoseStyle s).pose_arrow_shaft_diameter_property_.visible = false
        ∧ (updatePoseStyle s).pose_arrow_head_diameter_property_.visible = false)
    ∧ (s.pose_style_property_.value = ARROWS →
        (updatePoseStyle s).pose_axes_length_property_.visible = false
        ∧ (updatePoseStyle s).pose_axes_radius_property_.visible = false
        ∧ (updatePoseStyle s).pose_arrow_color_property_.visible = true
        ∧ (updatePoseStyle s).pose_arrow_shaft_length_property_.visible = true
        ∧ (updatePoseStyle s).pose_arrow_head_length_property_.visible = true
        ∧ (updatePoseStyle s).pose_arrow_shaft_diameter_property_.visible = true
        ∧ (updatePoseStyle s).pose_arrow_head_diameter_property_.visible = true)
    ∧ ((s.pose_style_property_.value ≠ AXES ∧ s.pose_style_property_.value ≠ ARROWS) →
        (updatePoseStyle s).pose_axes_length_property_.visible = false
        ∧ (updatePoseStyle s).pose_axes_radius_property_.visible = false
        ∧ (updatePoseStyle s).pose_arrow_color_property_.visible = false
        ∧ (updatePoseStyle s).pose_arrow_shaft_length_property_.visible = false
        ∧ (updatePoseStyle s).pose_arrow_head_length_property_.visible = false
        ∧ (updatePoseStyle s).pose_arrow_shaft_diameter_property_.visible = false
        ∧ (updatePoseStyle s).pose_arrow_head_diameter_property_.visible = false)
    ∧ (updatePoseStyle s).pose_style_property_ = s.pose_style_property_
    ∧ ¬ (axesGroupVisible (updatePoseStyle s) = true ∧ arrowGroupVisible (updatePoseStyle s) = true) := by
  have hne : AXES ≠ ARROWS := by decide
  by_cases h1 : s.pose_style_property_.value = AXES
  · have h2 : ¬ s.pose_style_property_.value = ARROWS := by rw [h1]; exact hne
    simp [updatePoseStyle, updateBufferLength_eq, h1, hne, Property.hide, Property.show_,
      axesGroupVisible, arrowGroupVisible]
  · by_cases h2 : s.pose_style_property_.value = ARROWS
    · simp [updatePoseStyle, updateBufferLength_eq, h2, hne.symm, Property.hide,
        Property.show_, axesGroupVisible, arrowGroupVisible]
    · simp [updatePoseStyle, updateBufferLength_eq, h1, h2, Property.hide, Property.show_,
        axesGroupVisible, arrowGroupVisible]

theorem setLineStyle_visible (s : PathsDisplay F) (style : Int) :
    ((setLineStyle s style).line_width_property_.visible = true
      ↔ (setLineStyle s style).style_property_.value = BILLBOARDS) := by
  by_cases h1 : style = BILLBOARDS
  · simp [setLineStyle, updateStyle, updateBufferLength_eq, h1, Property.show_]
  · simp [setLineStyle, updateStyle, updateBufferLength_eq, h1, Property.hide]

/-- C5: in every state reached from a newly constructed display by line-style changes, each
followed by the slot updateStyle, the Line Width property is visible exactly when the selected
line style is BILLBOARDS. -/
theorem line_width_visible_iff_billboards (h : Host D F M) (number_paths_init : Int)
    (styles : List Int) :
    ((styles.foldl setLineStyle
          (PathsDisplay.PathsDisplay h number_paths_init)).line_width_property_.visible = true
      ↔ (styles.foldl setLineStyle
          (PathsDisplay.PathsDisplay h number_paths_init)).style_property_.value = BILLBOARDS) := by
  induction styles using List.reverseRecOn with
  | nil =>
    simp [PathsDisplay.PathsDisplay, Property.hide, LINES_ne_BILLBOARDS]
  | append_singleton styles style _ =>
    rw [List.foldl_append]
    exact setLineStyle_visible _ style

end Visibility

/-! ## Drawing one path -/

section Drawing

variable {D F M : Type}

theorem position_colour (m : ManualObject F) (v : Vector3 F) (c : ColourValue F) :
    (m.position v).colour c
      = { m with vertices := m.vertices ++ [{ position := v, colour := some c }] } := by
  simp [ManualObject.position, ManualObject.colour]

theorem updateManualObject_eq (h : Host D F M) (s : PathsDisplay F) (mo : ManualObject F)
    (msg : Path D) (T : M) :
    updateManualObject h s mo msg T
      = { dynamic := mo.dynamic
          vertices := mo.vertices ++ msg.poses.map (fun pose_stamped =>
            { position := h.mulMV T (h.pointMsgToOgre pose_stamped.pose.position)
              colour := some { r := (h.getOgreColor s.color_property_.value).r
                               g := (h.getOgreColor s.color_property_.value).g
                               b := (h.getOgreColor s.color_property_.value).b
                               a := s.alpha_property_.value } }) } := by
  unfold updateManualObject
  cases msg with
  | mk header poses =>
    simp only
    induction poses generalizing mo with
    | nil => simp
    | cons p ps ih =>
      rw [List.foldl_cons, position_colour, ih]
      simp

theorem updateBillBoardLine_eq (h : Host D F M) (s : PathsDisplay F) (b : BillboardLine F)
    (msg : Path D) (T : M) :
    updateBillBoardLine h s b msg T
      = { num_lines := some 1
          max_points_per_line := some (toUInt32 msg.poses.length)
          line_width := some s.line_width_property_.value
          points := b.points ++ msg.poses.map (fun pose_stamped =>
            { position := h.mulMV T (h.pointMsgToOgre pose_stamped.pose.position)
              colour := { r := (h.getOgreColor s.color_property_.value).r
                          g := (h.getOgreColor s.color_property_.value).g
                          b := (h.getOgreColor s.color_property_.value).b
                          a := s.alpha_property_.value } }) } := by
  unfold updateBillBoardLine
  cases msg with
  | mk header poses =>
    simp only
    generalize toUInt32 poses.length = mx
    induction poses generalizing b with
    | nil => simp
    | cons p ps ih =>
      rw [List.foldl_cons]
      have := ih (b.addPoint (h.mulMV T (h.pointMsgToOgre p.pose.position))
        { r := (h.getOgreColor s.color_property_.value).r
          g := (h.getOgreColor s.color_property_.value).g
          b := (h.getOgreColor s.color_property_.value).b
          a := s.alpha_property_.value })
      simp only [BillboardLine.addPoint] at this ⊢
      rw [this]
      simp

theorem forRange_succ {σ : Type} (n : Nat) (body : Nat → σ → σ) (init : σ) :
    forRange (n + 1) body init = body n (forRange n body init) := by
  simp [forRange, List.range_succ, List.foldl_append]

theorem updateEach_prefix {α β : Type} (body : α → β → α) (poses : List β) (vect : List α)
    (hlen : vect.length = poses.length) (k : Nat) (hk : k ≤ poses.length) :
    (forRange k
        (fun i vect =>
          match vect[i]?, poses[i]? with
          | some marker, some pose_stamped => vect.set i (body marker pose_stamped)
          | _, _ => vect)
        vect).length = vect.length
    ∧ ∀ j, (forRange k
        (fun i vect =>
          match vect[i]?, poses[i]? with
          | some marker, some pose_stamped => vect.set i (body marker pose_stamped)
          | _, _ => vect)
        vect)[j]? = if j < k then (List.zipWith body vect poses)[j]? else vect[j]? := by
  induction k with
  | zero => simp [forRange]
  | succ k ih =>
    obtain ⟨ihl, ihj⟩ := ih (by omega)
    rw [forRange_succ]
    have hkv : k < vect.length := by omega
    have hkp : k < poses.length := by omega
    have hx : vect[k]? = some vect[k] := List.getElem?_eq_getElem hkv
    have hp : poses[k]? = some poses[k] := List.getElem?_eq_getElem hkp
    have hcur := ihj k
    simp only [lt_irrefl, if_false] at hcur
    simp only [hcur, hx, hp]
    refine ⟨by simp [ihl], ?_⟩
    intro j
    rw [List.getElem?_set]
    by_cases hjk : k = j
    · subst hjk
      simp [ihl, hkv, List.getElem?_zipWith, hx, hp]
    · rw [if_neg hjk, ihj j]
      by_cases hlt : j < k
      · simp [hlt, Nat.lt_succ_of_lt hlt]
      · have : ¬ j < k + 1 := by omega
        simp [hlt, this]

theorem updateEach_eq_zipWith {α β : Type} (body : α → β → α) (poses : List β) (vect : List α)
    (hlen : vect.length = poses.length) :
    updateEach body poses vect = List.zipWith body vect poses := by
  obtain ⟨_, hj⟩ := updateEach_prefix body poses vect hlen poses.length (le_refl _)
  apply List.ext_getElem?
  intro j
  unfold updateEach
  rw [hj j]
  by_cases hlt : j < poses.length
  · simp [hlt]
  · simp only [hlt, if_false]
    rw [List.getElem?_eq_none (by omega), List.getElem?_eq_none]
    simp [List.length_zipWith]
    omega

theorem allocateAxesVector_length (s : PathsDisplay F) (axes_vect : List (Axes F)) (num : Nat) :
    (allocateAxesVector s axes_vect num).length = num := by
  unfold allocateAxesVector
  simp only
  split_ifs with h1 h2
  · simp; omega
  · simp; omega
  · omega

theorem allocateArrowVector_length (arrow_vect : List (Arrow F)) (num : Nat) :
    (allocateArrowVector arrow_vect num).length = num := by
  unfold allocateArrowVector
  simp only
  split_ifs with h1 h2
  · simp; omega
  · simp; omega
  · omega

theorem updateAxesMarkers_eq (h : Host D F M) (s : PathsDisplay F) (axes_vect : List (Axes F))
    (msg : Path D) (T : M) :
    updateAxesMarkers h s axes_vect msg T
      = List.zipWith (setAxesPose h T) (allocateAxesVector s axes_vect msg.poses.length)
          msg.poses := by
  unfold updateAxesMarkers
  exact updateEach_eq_zipWith _ _ _ (allocateAxesVector_length _ _ _)

theorem updateArrowMarkers_eq (h : Host D F M) (s : PathsDisplay F)
    (arrow_vect : List (Arrow F)) (msg : Path D) (T : M) :
    updateArrowMarkers h s arrow_vect msg T
      = List.zipWith (setArrowPose h s T) (allocateArrowVector arrow_vect msg.poses.length)
          msg.poses := by
  unfold updateArrowMarkers
  exact updateEach_eq_zipWith _ _ _ (allocateArrowVector_length _ _)

theorem zipWith_replicate_left {α β γ : Type} (f : α → β → γ) (a : α) (l : List β) :
    List.zipWith f (List.replicate l.length a) l = l.map (f a) := by
  induction l with
  | nil => simp
  | cons b l ih => simp [List.replicate_succ, ih]

theorem allocateAxesVector_nil (s : PathsDisplay F) (num : Nat) :
    allocateAxesVector s [] num
      = List.replicate num
          { length := s.pose_axes_length_property_.value
            radius := s.pose_axes_radius_property_.value
            position := none
            orientation := none } := by
  unfold allocateAxesVector
  cases num with
  | zero => simp
  | succ n => simp

theorem allocateArrowVector_nil (num : Nat) :
    allocateArrowVector ([] : List (Arrow F)) num = List.replicate num Arrow.create := by
  unfold allocateArrowVector
  cases num with
  | zero => simp
  | succ n => simp

theorem updateAxesMarkers_nil (h : Host D F M) (s : PathsDisplay F) (msg : Path D) (T : M) :
    updateAxesMarkers h s [] msg T
      = msg.poses.map (fun pose_stamped =>
          { length := s.pose_axes_length_property_.value
            radius := s.pose_axes_radius_property_.value
            position := some (h.mulMV T (h.pointMsgToOgre pose_stamped.pose.position))
            orientation := some (h.mulQQ (h.linearQuaternion T)
              (h.quaternionMsgToOgre pose_stamped.pose.orientation)) }) := by
  rw [updateAxesMarkers_eq, allocateAxesVector_nil, zipWith_replicate_left]
  rfl

theorem updateArrowMarkers_nil (h : Host D F M) (s : PathsDisplay F) (msg : Path D) (T : M) :
    updateArrowMarkers h s [] msg T
      = msg.poses.map (fun pose_stamped =>
          { color := some (h.redF s.pose_arrow_color_property_.value,
              h.greenF s.pose_arrow_color_property_.value,
              h.blueF s.pose_arrow_color_property_.value, h.lit 1 1)
            geometry := some (s.pose_arrow_shaft_length_property_.value,
              s.pose_arrow_shaft_diameter_property_.value,
              s.pose_arrow_head_length_property_.value,
              s.pose_arrow_head_diameter_property_.value)
            position := some (h.mulMV T (h.pointMsgToOgre pose_stamped.pose.position))
            direction := some (h.mulQV
              (h.mulQQ (h.linearQuaternion T)
                (h.quaternionMsgToOgre pose_stamped.pose.orientation))
              { x := h.lit 1 1, y := h.lit 0 1, z := h.lit 0 1 }) }) := by
  rw [updateArrowMarkers_eq, allocateArrowVector_nil, zipWith_replicate_left]
  rfl

end Drawing

/-! ## Pose markers -/

section Markers

variable {D F M : Type}

/-- C10: for the pose at index i of a path, updateAxesMarkers puts the axes at the transformed
pose position with orientation R * q, and updateArrowMarkers puts the arrow at the same
position with direction (R * q) applied to (1, 0, 0), where R is the rotation part of the
transform as a quaternion and q the orientation of the pose. -/
theorem markers_agree_on_orientation (h : Host D F M) (s : PathsDisplay F)
    (axes_vect : List (Axes F)) (arrow_vect : List (Arrow F)) (msg : Path D) (T : M)
    (i : Nat) (pose_stamped : PoseStamped D) (hp : msg.poses[i]? = some pose_stamped) :
    ∃ axes arrow,
      (updateAxesMarkers h s axes_vect msg T)[i]? = some axes
      ∧ (updateArrowMarkers h s arrow_vect msg T)[i]? = some arrow
      ∧ axes.position = some (h.mulMV T (h.pointMsgToOgre pose_stamped.pose.position))
      ∧ axes.orientation
          = some (h.mulQQ (h.linearQuaternion T)
              (h.quaternionMsgToOgre pose_stamped.pose.orientation))
      ∧ arrow.position = some (h.mulMV T (h.pointMsgToOgre pose_stamped.pose.position))
      ∧ arrow.direction
          = some (h.mulQV
              (h.mulQQ (h.linearQuaternion T)
                (h.quaternionMsgToOgre pose_stamped.pose.orientation))
              { x := h.lit 1 1, y := h.lit 0 1, z := h.lit 0 1 }) := by
  have hi : i < msg.poses.length := by
    by_contra hc
    rw [List.getElem?_eq_none (by omega)] at hp
    cases hp
  have h1 : i < (allocateAxesVector s axes_vect msg.poses.length).length := by
    rw [allocateAxesVector_length]; exact hi
  have h2 : i < (allocateArrowVector arrow_vect msg.poses.length).length := by
    rw [allocateArrowVector_length]; exact hi
  refine ⟨setAxesPose h T (allocateAxesVector s axes_vect msg.poses.length)[i] pose_stamped,
    setArrowPose h s T (allocateArrowVector arrow_vect msg.poses.length)[i] pose_stamped,
    ?_, ?_, rfl, rfl, rfl, rfl⟩
  · rw [updateAxesMarkers_eq, List.getElem?_zipWith, List.getElem?_eq_getElem h1, hp]
  · rw [updateArrowMarkers_eq, List.getElem?_zipWith, List.getElem?_eq_getElem h2, hp]

/-- Witness of C10: the second pose of exPath under exTransform. -/
theorem markers_agree_on_orientation_witness :
    ∃ axes arrow,
      (updateAxesMarkers intHost (exDisplay LINES AXES 1) [] exPath exTransform)[1]? = some axes
      ∧ (updateArrowMarkers intHost (exDisplay LINES AXES 1) [] exPath exTransform)[1]?
          = some arrow
      ∧ axes.position = some { x := 5, y := 15, z := 35 }
      ∧ axes.orientation = some { w := 0, x := 0, y := 1, z := 0 }
      ∧ arrow.position = some { x := 5, y := 15, z := 35 }
      ∧ arrow.direction = some { x := -1, y := 0, z := 0 } :=
  markers_agree_on_orientation intHost (exDisplay LINES AXES 1) [] [] exPath exTransform 1
    { header := exHeader
      pose := { position := { x := 5, y := 5, z := 5 }
                orientation := { x := 1, y := 0, z := 0, w := 0 } } } rfl

end Markers

/-! ## The loop of processMessage -/

section Loop

variable {D F M : Type}

theorem lt_length_of_getElem? {α : Type} {l : List α} {i : Nat} {a : α} (h : l[i]? = some a) :
    i < l.length := by
  by_contra hc
  rw [List.getElem?_eq_none (by omega)] at h
  cases h

theorem prefix_getElem? {α β : Type} (l : List β) (f : β → α) (c : α) (N i : Nat) (hi : i < N)
    (hl : i ≤ l.length) :
    ((l.take i).map f ++ List.replicate (N - i) c)[i]? = some c := by
  have hlen : ((l.take i).map f).length = i := by simp; omega
  have := getElem?_append_replicate ((l.take i).map f) (N - i) c (by omega)
  rw [hlen] at this
  exact this

theorem prefix_set_self {α β : Type} (l : List β) (f : β → α) (c : α) (N i : Nat)
    (hl : i ≤ l.length) :
    ((l.take i).map f ++ List.replicate (N - i) c).set i c
      = (l.take i).map f ++ List.replicate (N - i) c := by
  have hlen : ((l.take i).map f).length = i := by simp; omega
  rw [List.set_append_right _ _ (by omega), hlen, Nat.sub_self, List.set_replicate_self]

theorem prefix_set_next {α β : Type} (l : List β) (f : β → α) (c : α) (N i : Nat) (p : β)
    (hi : i < N) (hp : l[i]? = some p) :
    ((l.take i).map f ++ List.replicate (N - i) c).set i (f p)
      = (l.take (i + 1)).map f ++ List.replicate (N - (i + 1)) c := by
  have hl := lt_length_of_getElem? hp
  have hlen : ((l.take i).map f).length = i := by simp; omega
  have hN : N - i = (N - (i + 1)) + 1 := by omega
  have := set_append_replicate ((l.take i).map f) (N - (i + 1)) c (f p)
  rw [hlen, ← hN] at this
  rw [this, List.take_succ, hp]
  simp

theorem clear_create : ManualObject.clear (ManualObject.create : ManualObject F) = ManualObject.create :=
  rfl

theorem clear_create_billboard :
    BillboardLine.clear (BillboardLine.create : BillboardLine F) = BillboardLine.create :=
  rfl

theorem clearObject_renderedState (h : Host D F M) (msg : Paths D) (T : M) (s : PathsDisplay F)
    (N i : Nat) (hi : i < N) (hl : i ≤ msg.paths.length) :
    clearObject i (renderedState h msg T s N i) = some (renderedState h msg T s N i) := by
  unfold clearObject
  by_cases h1 : s.style_property_.value = LINES
  · have hg := prefix_getElem? msg.paths
      (fun p => updateManualObject h s ManualObject.create p T) ManualObject.create N i hi hl
    simp only [renderedState, h1, if_true, hg, clear_create, prefix_set_self _ _ _ N i hl]
  · by_cases h2 : s.style_property_.value = BILLBOARDS
    · have hg := prefix_getElem? msg.paths
        (fun p => updateBillBoardLine h s BillboardLine.create p T) BillboardLine.create N i hi hl
      simp only [renderedState, h2, BILLBOARDS_ne_LINES, if_true, if_false, hg,
        clear_create_billboard, prefix_set_self _ _ _ N i hl]
    · simp only [renderedState, h1, h2, if_false]

theorem replicate_getElem?_of_lt {α : Type} (c : α) (N i : Nat) (hi : i < N) :
    (List.replicate N c)[i]? = some c := by
  rw [List.getElem?_replicate, if_pos hi]

theorem draw_renderedState (h : Host D F M) (msg : Paths D) (T : M) (s : PathsDisplay F)
    (N i : Nat) (p : Path D) (hi : i < N) (hp : msg.paths[i]? = some p) :
    updatePoseMarkers h i p T
        (drawObject h i p T
          { renderedState h msg T s N i with
            transform_status := some TransformStatus.TransformOk })
      = some (renderedState h msg T s N (i + 1)) := by
  have hl : i ≤ msg.paths.length := le_of_lt (lt_length_of_getElem? hp)
  have hne : ¬ (i + 1 = 0) := by omega
  have hgM := prefix_getElem? msg.paths
    (fun p => updateManualObject h s ManualObject.create p T) ManualObject.create N i hi hl
  have hsM := prefix_set_next msg.paths
    (fun p => updateManualObject h s ManualObject.create p T) ManualObject.create N i p hi hp
  have hgB := prefix_getElem? msg.paths
    (fun p => updateBillBoardLine h s BillboardLine.create p T) BillboardLine.create N i hi hl
  have hsB := prefix_set_next msg.paths
    (fun p => updateBillBoardLine h s BillboardLine.create p T) BillboardLine.create N i p hi hp
  have hgX := prefix_getElem? msg.paths (fun p => updateAxesMarkers h s [] p T) [] N i hi hl
  have hsX := prefix_set_next msg.paths (fun p => updateAxesMarkers h s [] p T) [] N i p hi hp
  have hgA := prefix_getElem? msg.paths (fun p => updateArrowMarkers h s [] p T) [] N i hi hl
  have hsA := prefix_set_next msg.paths (fun p => updateArrowMarkers h s [] p T) [] N i p hi hp
  have hrX := replicate_getElem?_of_lt ([] : List (Axes F)) N i hi
  have hrA := replicate_getElem?_of_lt ([] : List (Arrow F)) N i hi
  simp only [updateManualObject_eq, updateBillBoardLine_eq, updateAxesMarkers_nil,
    updateArrowMarkers_nil] at hgM hsM hgB hsB hgX hsX hgA hsA
  unfold updatePoseMarkers drawObject
  by_cases h1 : s.style_property_.value = LINES
  · by_cases h3 : s.pose_style_property_.value = AXES
    · simp only [h1, h3, renderedState, if_true, if_false, hgM, hsM, hgB, hsB, hgX, hsX, hgA, hsA, hrA, hrX,
        updateManualObject_eq, updateBillBoardLine_eq, updateAxesMarkers_nil, updateArrowMarkers_nil,
        if_neg hne, LINES_ne_BILLBOARDS, BILLBOARDS_ne_LINES, AXES_ne_ARROWS, ARROWS_ne_AXES]
    · by_cases h4 : s.pose_style_property_.value = ARROWS
      · simp only [h1, h4, renderedState, if_true, if_false, hgM, hsM, hgB, hsB, hgX, hsX, hgA, hsA, hrA, hrX,
          updateManualObject_eq, updateBillBoardLine_eq, updateAxesMarkers_nil, updateArrowMarkers_nil,
          if_neg hne, LINES_ne_BILLBOARDS, BILLBOARDS_ne_LINES, AXES_ne_ARROWS, ARROWS_ne_AXES]
      · simp only [h1, h3, h4, renderedState, if_true, if_false, hgM, hsM, hgB, hsB, hgX, hsX, hgA, hsA, hrA, hrX,
          updateManualObject_eq, updateBillBoardLine_eq, updateAxesMarkers_nil, updateArrowMarkers_nil,
          if_neg hne, LINES_ne_BILLBOARDS, BILLBOARDS_ne_LINES, AXES_ne_ARROWS, ARROWS_ne_AXES]
  · by_cases h2 : s.style_property_.value = BILLBOARDS
    · by_cases h3 : s.pose_style_property_.value = AXES
      · simp only [h2, h3, renderedState, if_true, if_false, hgM, hsM, hgB, hsB, hgX, hsX, hgA, hsA, hrA, hrX,
          updateManualObject_eq, updateBillBoardLine_eq, updateAxesMarkers_nil, updateArrowMarkers_nil,
          if_neg hne, LINES_ne_BILLBOARDS, BILLBOARDS_ne_LINES, AXES_ne_ARROWS, ARROWS_ne_AXES]
      · by_cases h4 : s.pose_style_property_.value = ARROWS
        · simp only [h2, h4, renderedState, if_true, if_false, hgM, hsM, hgB, hsB, hgX, hsX, hgA, hsA, hrA, hrX,
            updateManualObject_eq, updateBillBoardLine_eq, updateAxesMarkers_nil, updateArrowMarkers_nil,
            if_neg hne, LINES_ne_BILLBOARDS, BILLBOARDS_ne_LINES, AXES_ne_ARROWS, ARROWS_ne_AXES]
        · simp only [h2, h3, h4, renderedState, if_true, if_false, hgM, hsM, hgB, hsB, hgX, hsX, hgA, hsA, hrA, hrX,
            updateManualObject_eq, updateBillBoardLine_eq, updateAxesMarkers_nil, updateArrowMarkers_nil,
            if_neg hne, LINES_ne_BILLBOARDS, BILLBOARDS_ne_LINES, AXES_ne_ARROWS, ARROWS_ne_AXES]
    · by_cases h3 : s.pose_style_property_.value = AXES
      · simp only [h1, h2, h3, renderedState, if_true, if_false, hgM, hsM, hgB, hsB, hgX, hsX, hgA, hsA, hrA, hrX,
          updateManualObject_eq, updateBillBoardLine_eq, updateAxesMarkers_nil, updateArrowMarkers_nil,
          if_neg hne, LINES_ne_BILLBOARDS, BILLBOARDS_ne_LINES, AXES_ne_ARROWS, ARROWS_ne_AXES]
      · by_cases h4 : s.pose_style_property_.value = ARROWS
        · simp only [h1, h2, h4, renderedState, if_true, if_false, hgM, hsM, hgB, hsB, hgX, hsX, hgA, hsA, hrA, hrX,
            updateManualObject_eq, updateBillBoardLine_eq, updateAxesMarkers_nil, updateArrowMarkers_nil,
            if_neg hne, LINES_ne_BILLBOARDS, BILLBOARDS_ne_LINES, AXES_ne_ARROWS, ARROWS_ne_AXES]
        · simp only [h1, h2, h3, h4, renderedState, if_true, if_false, hgM, hsM, hgB, hsB, hgX, hsX, hgA, hsA, hrA, hrX,
            updateManualObject_eq, updateBillBoardLine_eq, updateAxesMarkers_nil, updateArrowMarkers_nil,
            if_neg hne, LINES_ne_BILLBOARDS, BILLBOARDS_ne_LINES, AXES_ne_ARROWS, ARROWS_ne_AXES]

theorem processPath_next (h : Host D F M) (msg : Paths D) (s : PathsDisplay F) (N i : Nat)
    (p : Path D) (pos : Vector3 F) (ori : Quaternion F) (hi : i < N)
    (hp : msg.paths[i]? = some p) (hv : validateFloats h p = true)
    (ht : h.getTransform msg.header = some (pos, ori)) :
    processPath h msg i (renderedState h msg (transformOf h pos ori) s N i)
      = some (Flow.next (renderedState h msg (transformOf h pos ori) s N (i + 1))) := by
  have hl : i ≤ msg.paths.length := le_of_lt (lt_length_of_getElem? hp)
  unfold processPath
  simp only [hp, clearObject_renderedState h msg _ s N i hi hl, hv, ht, Bool.not_true]
  have := draw_renderedState h msg (transformOf h pos ori) s N i p hi hp
  simp only [transformOf] at this ⊢
  simp [this]

theorem processPath_invalid (h : Host D F M) (msg : Paths D) (T : M) (s : PathsDisplay F)
    (N i : Nat) (p : Path D) (hi : i < N) (hp : msg.paths[i]? = some p)
    (hv : validateFloats h p = false) :
    processPath h msg i (renderedState h msg T s N i)
      = some (Flow.ret { renderedState h msg T s N i with
          topic_status := some (StatusLevel.Error, invalidFloatsText) }) := by
  have hl : i ≤ msg.paths.length := le_of_lt (lt_length_of_getElem? hp)
  unfold processPath
  simp only [hp, clearObject_renderedState h msg _ s N i hi hl, hv]
  rfl

theorem processPath_missing (h : Host D F M) (msg : Paths D) (T : M) (s : PathsDisplay F)
    (N i : Nat) (p : Path D) (hi : i < N) (hp : msg.paths[i]? = some p)
    (hv : validateFloats h p = true) (ht : h.getTransform msg.header = none) :
    processPath h msg i (renderedState h msg T s N i)
      = some (Flow.ret { renderedState h msg T s N i with
          transform_status :=
            some (TransformStatus.MissingTransformToFixedFrame msg.header.frame_id) }) := by
  have hl : i ≤ msg.paths.length := le_of_lt (lt_length_of_getElem? hp)
  unfold processPath
  simp only [hp, clearObject_renderedState h msg _ s N i hi hl, hv, ht]
  rfl

theorem processLoop_complete (h : Host D F M) (msg : Paths D) (s : PathsDisplay F) (N : Nat)
    (pos : Vector3 F) (ori : Quaternion F)
    (hN : msg.paths.length ≤ N)
    (hv : ∀ p ∈ msg.paths, validateFloats h p = true)
    (ht : h.getTransform msg.header = some (pos, ori)) (todo : Nat) :
    ∀ i, i + todo ≤ msg.paths.length →
      processLoop h msg todo i (renderedState h msg (transformOf h pos ori) s N i)
        = some (renderedState h msg (transformOf h pos ori) s N (i + todo)) := by
  induction todo with
  | zero => intro i _; rfl
  | succ todo ih =>
    intro i hle
    have hi : i < msg.paths.length := by omega
    have hp : msg.paths[i]? = some msg.paths[i] := List.getElem?_eq_getElem hi
    have hvalid := hv msg.paths[i] (List.getElem_mem hi)
    rw [processLoop, processPath_next h msg s N i _ pos ori (by omega) hp hvalid ht]
    simp only
    rw [ih (i + 1) (by omega)]
    congr 2
    omega

theorem processLoop_invalid (h : Host D F M) (msg : Paths D) (s : PathsDisplay F) (N : Nat)
    (pos : Vector3 F) (ori : Quaternion F) (j : Nat) (bad : Path D)
    (hN : msg.paths.length ≤ N)
    (hbad : msg.paths[j]? = some bad) (hinv : validateFloats h bad = false)
    (hv : ∀ i p, i < j → msg.paths[i]? = some p → validateFloats h p = true)
    (ht : h.getTransform msg.header = some (pos, ori)) (todo : Nat) :
    ∀ i, i ≤ j → j < i + todo →
      processLoop h msg todo i (renderedState h msg (transformOf h pos ori) s N i)
        = some { renderedState h msg (transformOf h pos ori) s N j with
            topic_status := some (StatusLevel.Error, invalidFloatsText) } := by
  have hj : j < msg.paths.length := lt_length_of_getElem? hbad
  induction todo with
  | zero => intro i h1 h2; omega
  | succ todo ih =>
    intro i h1 h2
    by_cases hij : i = j
    · subst hij
      rw [processLoop, processPath_invalid h msg _ s N i bad (by omega) hbad hinv]
    · have hi : i < msg.paths.length := by omega
      have hp : msg.paths[i]? = some msg.paths[i] := List.getElem?_eq_getElem hi
      have hvalid := hv i msg.paths[i] (by omega) hp
      rw [processLoop, processPath_next h msg s N i _ pos ori (by omega) hp hvalid ht]
      simp only
      exact ih (i + 1) (by omega) (by omega)

theorem updateBufferLength_renderedState (h : Host D F M) (msg : Paths D) (T : M)
    (s : PathsDisplay F) :
    updateBufferLength { s with number_paths_ := toInt32 msg.paths.length }
      = renderedState h msg T s
          (bufferLength { s with number_paths_ := toInt32 msg.paths.length }) 0 := by
  rw [updateBufferLength_eq]
  simp [renderedState]

theorem bufferLength_message (msg : Paths D) (s : PathsDisplay F)
    (hn : msg.paths.length < 2 ^ 31)
    (hk0 : 0 ≤ s.buffer_length_property_.value) (hk1 : s.buffer_length_property_.value < 2 ^ 31) :
    bufferLength { s with number_paths_ := toInt32 msg.paths.length }
      = msg.paths.length * s.buffer_length_property_.value.toNat := by
  unfold bufferLength
  simp only
  rw [toInt32_of_lt hn, sizeProduct_eq (by omega) (by omega) hk0 hk1]
  simp

theorem processMessage_complete (h : Host D F M) (msg : Paths D) (s : PathsDisplay F)
    (pos : Vector3 F) (ori : Quaternion F)
    (hn : msg.paths.length < 2 ^ 31)
    (hk0 : 1 ≤ s.buffer_length_property_.value) (hk1 : s.buffer_length_property_.value < 2 ^ 31)
    (hv : ∀ p ∈ msg.paths, validateFloats h p = true)
    (ht : h.getTransform msg.header = some (pos, ori)) :
    processMessage h msg s
      = some (renderedState h msg (transformOf h pos ori) s
          (msg.paths.length * s.buffer_length_property_.value.toNat) msg.paths.length) := by
  unfold processMessage
  simp only
  rw [updateBufferLength_renderedState h msg (transformOf h pos ori) s,
    bufferLength_message msg s hn (by omega) hk1]
  have hnp : (renderedState h msg (transformOf h pos ori) s
      (msg.paths.length * s.buffer_length_property_.value.toNat) 0).number_paths_.toNat
        = msg.paths.length := by
    show (toInt32 msg.paths.length).toNat = msg.paths.length
    rw [toInt32_of_lt hn]; simp
  rw [hnp]
  have hk : 1 ≤ s.buffer_length_property_.value.toNat := by omega
  have hN : msg.paths.length ≤ msg.paths.length * s.buffer_length_property_.value.toNat :=
    Nat.le_mul_of_pos_right _ hk
  have := processLoop_complete h msg s _ pos ori hN hv ht msg.paths.length 0 (by omega)
  rw [this]
  simp

theorem processMessage_stops_at (h : Host D F M) (msg : Paths D) (s : PathsDisplay F)
    (pos : Vector3 F) (ori : Quaternion F) (j : Nat) (bad : Path D)
    (hn : msg.paths.length < 2 ^ 31)
    (hk0 : 1 ≤ s.buffer_length_property_.value) (hk1 : s.buffer_length_property_.value < 2 ^ 31)
    (hbad : msg.paths[j]? = some bad) (hinv : validateFloats h bad = false)
    (hv : ∀ i p, i < j → msg.paths[i]? = some p → validateFloats h p = true)
    (ht : h.getTransform msg.header = some (pos, ori)) :
    processMessage h msg s
      = some { renderedState h msg (transformOf h pos ori) s
            (msg.paths.length * s.buffer_length_property_.value.toNat) j with
          topic_status := some (StatusLevel.Error, invalidFloatsText) } := by
  unfold processMessage
  simp only
  rw [updateBufferLength_renderedState h msg (transformOf h pos ori) s,
    bufferLength_message msg s hn (by omega) hk1]
  have hnp : (renderedState h msg (transformOf h pos ori) s
      (msg.paths.length * s.buffer_length_property_.value.toNat) 0).number_paths_.toNat
        = msg.paths.length := by
    show (toInt32 msg.paths.length).toNat = msg.paths.length
    rw [toInt32_of_lt hn]; simp
  rw [hnp]
  have hk : 1 ≤ s.buffer_length_property_.value.toNat := by omega
  have hN : msg.paths.length ≤ msg.paths.length * s.buffer_length_property_.value.toNat :=
    Nat.le_mul_of_pos_right _ hk
  have hj : j < msg.paths.length := lt_length_of_getElem? hbad
  exact processLoop_invalid h msg s _ pos ori j bad hN hbad hinv hv ht msg.paths.length 0
    (by omega) (by omega)

theorem prefix_getElem?_lt {α β : Type} (l : List β) (f : β → α) (c : α) (N j i : Nat) (p : β)
    (hij : i < j) (hp : l[i]? = some p) :
    ((l.take j).map f ++ List.replicate (N - j) c)[i]? = some (f p) := by
  have hl := lt_length_of_getElem? hp
  have hlen : i < ((l.take j).map f).length := by simp; omega
  rw [List.getElem?_append_left hlen, List.getElem?_map, List.getElem?_take_of_lt hij, hp]
  rfl

theorem prefix_getElem?_ge {α β : Type} (l : List β) (f : β → α) (c : α) (N j i : Nat) (x : α)
    (hj : j ≤ l.length) (hij : j ≤ i)
    (hx : ((l.take j).map f ++ List.replicate (N - j) c)[i]? = some x) : x = c := by
  have hlen : ((l.take j).map f).length = j := by simp; omega
  rw [List.getElem?_append_right (by omega), List.getElem?_replicate] at hx
  split_ifs at hx
  exact (Option.some.inj hx).symm

theorem replicate_getElem?_eq {α : Type} (c : α) (N i : Nat) (x : α)
    (hx : (List.replicate N c)[i]? = some x) : x = c := by
  rw [List.getElem?_replicate] at hx
  split_ifs at hx
  exact (Option.some.inj hx).symm

theorem first_invalid {α : Type} (P : α → Bool) (l : List α) :
    (∀ p ∈ l, P p = true)
    ∨ ∃ (j : Nat) (bad : α), l[j]? = some bad ∧ P bad = false
        ∧ ∀ (i : Nat) (p : α), i < j → l[i]? = some p → P p = true := by
  induction l with
  | nil => left; simp
  | cons a l ih =>
    cases ha : P a with
    | false =>
      right
      exact ⟨0, a, by simp, ha, fun i p hi _ => absurd hi (Nat.not_lt_zero i)⟩
    | true =>
      rcases ih with hall | ⟨j, bad, hj, hbad, hpre⟩
      · left
        intro p hp
        rcases List.mem_cons.mp hp with rfl | hp
        · exact ha
        · exact hall p hp
      · right
        refine ⟨j + 1, bad, by simpa using hj, hbad, ?_⟩
        intro i p hi hp
        cases i with
        | zero =>
          simp at hp
          rw [← hp]; exact ha
        | succ i =>
          exact hpre i p (by omega) (by simpa using hp)

/-- C3: when every path of the message has valid floats and the transform lookup gives T,
processMessage returns, and for every path i of the message the manual object at index i (in
LINES style) and the billboard line at index i (in BILLBOARDS style) hold exactly one point per
pose of the path, in pose order, the j-th being T applied to the position of the j-th pose; the
two styles give the same sequence of points. -/
theorem processMessage_transformed_points (h : Host D F M) (msg : Paths D)
    (sL sB : PathsDisplay F) (pos : Vector3 F) (ori : Quaternion F)
    (hn : msg.paths.length < 2 ^ 31)
    (hL : sL.style_property_.value = LINES) (hB : sB.style_property_.value = BILLBOARDS)
    (hLk0 : 1 ≤ sL.buffer_length_property_.value)
    (hLk1 : sL.buffer_length_property_.value < 2 ^ 31)
    (hBk0 : 1 ≤ sB.buffer_length_property_.value)
    (hBk1 : sB.buffer_length_property_.value < 2 ^ 31)
    (hv : ∀ p ∈ msg.paths, validateFloats h p = true)
    (ht : h.getTransform msg.header = some (pos, ori)) :
    ∃ sL' sB',
      processMessage h msg sL = some sL' ∧ processMessage h msg sB = some sB'
      ∧ ∀ (i : Nat) (p : Path D), msg.paths[i]? = some p →
          ∃ manual_object billboard_line,
            sL'.manual_objects_[i]? = some manual_object
            ∧ sB'.billboard_lines_[i]? = some billboard_line
            ∧ manual_object.vertices.map Vertex.position
                = p.poses.map (fun pose_stamped =>
                    h.mulMV (transformOf h pos ori) (h.pointMsgToOgre pose_stamped.pose.position))
            ∧ billboard_line.points.map BillboardPoint.position
                = p.poses.map (fun pose_stamped =>
                    h.mulMV (transformOf h pos ori)
                      (h.pointMsgToOgre pose_stamped.pose.position)) := by
  refine ⟨_, _, processMessage_complete h msg sL pos ori hn hLk0 hLk1 hv ht,
    processMessage_complete h msg sB pos ori hn hBk0 hBk1 hv ht, ?_⟩
  intro i p hp
  have hi := lt_length_of_getElem? hp
  refine ⟨updateManualObject h sL ManualObject.create p (transformOf h pos ori),
    updateBillBoardLine h sB BillboardLine.create p (transformOf h pos ori), ?_, ?_, ?_, ?_⟩
  · simp only [renderedState, hL, if_true]
    exact prefix_getElem?_lt _ _ _ _ _ _ p hi hp
  · simp only [renderedState, hB, if_true]
    exact prefix_getElem?_lt _ _ _ _ _ _ p hi hp
  · rw [updateManualObject_eq]
    simp [ManualObject.create]
  · rw [updateBillBoardLine_eq]
    simp [BillboardLine.create]

/-- Witness of C3: the message exMessage2 on a LINES display and on a BILLBOARDS display. -/
theorem processMessage_transformed_points_witness :
    ∃ sL' sB',
      processMessage intHost exMessage2 (exDisplay LINES NONE 2) = some sL'
      ∧ processMessage intHost exMessage2 (exDisplay BILLBOARDS NONE 1) = some sB'
      ∧ ∀ (i : Nat) (p : Path Int), exMessage2.paths[i]? = some p →
          ∃ manual_object billboard_line,
            sL'.manual_objects_[i]? = some manual_object
            ∧ sB'.billboard_lines_[i]? = some billboard_line
            ∧ manual_object.vertices.map Vertex.position
                = p.poses.map (fun pose_stamped =>
                    intHost.mulMV
                      (transformOf intHost { x := 10, y := 20, z := 30 }
                        { w := 0, x := 0, y := 0, z := 1 })
                      (intHost.pointMsgToOgre pose_stamped.pose.position))
            ∧ billboard_line.points.map BillboardPoint.position
                = p.poses.map (fun pose_stamped =>
                    intHost.mulMV
                      (transformOf intHost { x := 10, y := 20, z := 30 }
                        { w := 0, x := 0, y := 0, z := 1 })
                      (intHost.pointMsgToOgre pose_stamped.pose.position)) :=
  processMessage_transformed_points intHost exMessage2 (exDisplay LINES NONE 2)
    (exDisplay BILLBOARDS NONE 1) { x := 10, y := 20, z := 30 } { w := 0, x := 0, y := 0, z := 1 }
    (by decide) rfl rfl (by decide) (by decide) (by decide) (by decide) (by decide) rfl

/-- C6: when every path of the message has valid floats and the transform lookup succeeds,
processMessage returns, and for every path i of the message: in AXES style axes_chain_[i] has
as many axes as the path has poses and arrow_chain_[i] is empty; in ARROWS style arrow_chain_[i]
has as many arrows as the path has poses and axes_chain_[i] is empty; in any other style both
are empty.  Every chain entry at an index from the number of paths on is empty. -/
theorem processMessage_pose_markers (h : Host D F M) (msg : Paths D) (s : PathsDisplay F)
    (pos : Vector3 F) (ori : Quaternion F)
    (hn : msg.paths.length < 2 ^ 31)
    (hk0 : 1 ≤ s.buffer_length_property_.value) (hk1 : s.buffer_length_property_.value < 2 ^ 31)
    (hv : ∀ p ∈ msg.paths, validateFloats h p = true)
    (ht : h.getTransform msg.header = some (pos, ori)) :
    ∃ s',
      processMessage h msg s = some s'
      ∧ s'.pose_style_property_ = s.pose_style_property_
      ∧ (∀ (i : Nat) (p : Path D), msg.paths[i]? = some p →
          (s.pose_style_property_.value = AXES →
            ∃ axes_vect, s'.axes_chain_[i]? = some axes_vect
              ∧ axes_vect.length = p.poses.length ∧ s'.arrow_chain_[i]? = some [])
          ∧ (s.pose_style_property_.value = ARROWS →
            ∃ arrow_vect, s'.arrow_chain_[i]? = some arrow_vect
              ∧ arrow_vect.length = p.poses.length ∧ s'.axes_chain_[i]? = some [])
          ∧ (s.pose_style_property_.value ≠ AXES → s.pose_style_property_.value ≠ ARROWS →
            s'.axes_chain_[i]? = some [] ∧ s'.arrow_chain_[i]? = some []))
      ∧ (∀ (i : Nat), msg.paths.length ≤ i →
          (∀ axes_vect, s'.axes_chain_[i]? = some axes_vect → axes_vect = [])
          ∧ (∀ arrow_vect, s'.arrow_chain_[i]? = some arrow_vect → arrow_vect = [])) := by
  refine ⟨_, processMessage_complete h msg s pos ori hn hk0 hk1 hv ht, rfl, ?_, ?_⟩
  · intro i p hp
    have hi := lt_length_of_getElem? hp
    have hk : 1 ≤ s.buffer_length_property_.value.toNat := by omega
    have hN : i < msg.paths.length * s.buffer_length_property_.value.toNat :=
      lt_of_lt_of_le hi (Nat.le_mul_of_pos_right _ hk)
    refine ⟨?_, ?_, ?_⟩
    · intro h3
      refine ⟨updateAxesMarkers h s [] p (transformOf h pos ori), ?_, ?_, ?_⟩
      · simp only [renderedState, h3, if_true]
        exact prefix_getElem?_lt _ _ _ _ _ _ p hi hp
      · rw [updateAxesMarkers_nil]; simp
      · simp only [renderedState, h3, AXES_ne_ARROWS, if_false]
        exact replicate_getElem?_of_lt _ _ _ hN
    · intro h4
      refine ⟨updateArrowMarkers h s [] p (transformOf h pos ori), ?_, ?_, ?_⟩
      · simp only [renderedState, h4, if_true]
        exact prefix_getElem?_lt _ _ _ _ _ _ p hi hp
      · rw [updateArrowMarkers_nil]; simp
      · simp only [renderedState, h4, ARROWS_ne_AXES, if_false]
        exact replicate_getElem?_of_lt _ _ _ hN
    · intro h3 h4
      simp only [renderedState, h3, h4, if_false]
      exact ⟨replicate_getElem?_of_lt _ _ _ hN, replicate_getElem?_of_lt _ _ _ hN⟩
  · intro i hi
    refine ⟨?_, ?_⟩
    · intro v hx
      simp only [renderedState] at hx
      split_ifs at hx
      · exact prefix_getElem?_ge _ _ _ _ _ _ v (le_refl _) hi hx
      · exact replicate_getElem?_eq _ _ _ v hx
    · intro v hx
      simp only [renderedState] at hx
      split_ifs at hx
      · exact prefix_getElem?_ge _ _ _ _ _ _ v (le_refl _) hi hx
      · exact replicate_getElem?_eq _ _ _ v hx

/-- Witness of C6: the message exMessage2 on a display in ARROWS style. -/
theorem processMessage_pose_markers_witness :
    ∃ s',
      processMessage intHost exMessage2 (exDisplay LINES ARROWS 2) = some s'
      ∧ s'.pose_style_property_ = (exDisplay LINES ARROWS 2).pose_style_property_
      ∧ (∀ (i : Nat) (p : Path Int), exMessage2.paths[i]? = some p →
          ((exDisplay LINES ARROWS 2).pose_style_property_.value = AXES →
            ∃ axes_vect, s'.axes_chain_[i]? = some axes_vect
              ∧ axes_vect.length = p.poses.length ∧ s'.arrow_chain_[i]? = some [])
          ∧ ((exDisplay LINES ARROWS 2).pose_style_property_.value = ARROWS →
            ∃ arrow_vect, s'.arrow_chain_[i]? = some arrow_vect
              ∧ arrow_vect.length = p.poses.length ∧ s'.axes_chain_[i]? = some [])
          ∧ ((exDisplay LINES ARROWS 2).pose_style_property_.value ≠ AXES →
            (exDisplay LINES ARROWS 2).pose_style_property_.value ≠ ARROWS →
            s'.axes_chain_[i]? = some [] ∧ s'.arrow_chain_[i]? = some []))
      ∧ (∀ (i : Nat), exMessage2.paths.length ≤ i →
          (∀ axes_vect, s'.axes_chain_[i]? = some axes_vect → axes_vect = [])
          ∧ (∀ arrow_vect, s'.arrow_chain_[i]? = some arrow_vect → arrow_vect = [])) :=
  processMessage_pose_markers intHost exMessage2 (exDisplay LINES ARROWS 2)
    { x := 10, y := 20, z := 30 } { w := 0, x := 0, y := 0, z := 1 }
    (by decide) (by decide) (by decide) (by decide) rfl

theorem toInt32_lt (n : Nat) : toInt32 n < 2 ^ 31 := by
  unfold toInt32
  split_ifs with hlt
  · omega
  · have : n % 2 ^ 32 < 2 ^ 32 := Nat.mod_lt _ (by norm_num)
    omega

theorem toInt32_zero : toInt32 0 = 0 := by decide

theorem processMessage_lookup_fails (h : Host D F M) (msg : Paths D) (T : M) (s : PathsDisplay F)
    (hk0 : 1 ≤ s.buffer_length_property_.value) (hk1 : s.buffer_length_property_.value < 2 ^ 31)
    (ht : h.getTransform msg.header = none) :
    ∃ N topic transform,
      processMessage h msg s
        = some { renderedState h msg T s N 0 with
            topic_status := topic, transform_status := transform }
      ∧ (msg.paths.length < 2 ^ 31 → ∀ p, msg.paths[0]? = some p → validateFloats h p = true →
          transform = some (TransformStatus.MissingTransformToFixedFrame msg.header.frame_id)) := by
  unfold processMessage
  simp only
  rw [updateBufferLength_renderedState h msg T s]
  have hNpos : 1 ≤ toInt32 msg.paths.length →
      0 < bufferLength { s with number_paths_ := toInt32 msg.paths.length } := by
    intro hpos
    have hlt := toInt32_lt msg.paths.length
    unfold bufferLength
    simp only
    rw [sizeProduct_eq (by omega) hlt (by omega) hk1]
    apply Nat.mul_pos <;> omega
  generalize bufferLength { s with number_paths_ := toInt32 msg.paths.length } = N at hNpos ⊢
  have hnp : (renderedState h msg T s N 0).number_paths_ = toInt32 msg.paths.length := rfl
  rw [hnp]
  cases hc : (toInt32 msg.paths.length).toNat with
  | zero =>
    refine ⟨N, s.topic_status, s.transform_status, rfl, ?_⟩
    intro hn p hp _
    have hlen := lt_length_of_getElem? hp
    rw [toInt32_of_lt hn] at hc
    omega
  | succ c =>
    have hN : 0 < N := hNpos (by omega)
    have hne : msg.paths.length ≠ 0 := by
      intro h0
      rw [h0, toInt32_zero] at hc
      simp at hc
    have hi : 0 < msg.paths.length := Nat.pos_of_ne_zero hne
    have hp : msg.paths[0]? = some msg.paths[0] := List.getElem?_eq_getElem hi
    cases hvalid : validateFloats h msg.paths[0] with
    | false =>
      refine ⟨N, some (StatusLevel.Error, invalidFloatsText), s.transform_status, ?_, ?_⟩
      · rw [processLoop, processPath_invalid h msg T s N 0 _ hN hp hvalid]
        rfl
      · intro _ p hp' hv'
        rw [hp] at hp'
        cases hp'
        rw [hvalid] at hv'
        cases hv'
    | true =>
      refine ⟨N, s.topic_status,
        some (TransformStatus.MissingTransformToFixedFrame msg.header.frame_id), ?_, ?_⟩
      · rw [processLoop, processPath_missing h msg T s N 0 _ hN hp hvalid ht]
        rfl
      · intro _ _ _ _
        rfl

theorem renderedState_manual_colour (h : Host D F M) (msg : Paths D) (T : M)
    (s : PathsDisplay F) (N j : Nat) :
    ∀ manual_object ∈ (renderedState h msg T s N j).manual_objects_,
      ∀ vertex ∈ manual_object.vertices,
        vertex.colour
          = some { r := (h.getOgreColor s.color_property_.value).r
                   g := (h.getOgreColor s.color_property_.value).g
                   b := (h.getOgreColor s.color_property_.value).b
                   a := s.alpha_property_.value } := by
  intro mo hmo v hv
  simp only [renderedState] at hmo
  split_ifs at hmo
  · rcases List.mem_append.mp hmo with hm | hm
    · obtain ⟨p, _, rfl⟩ := List.mem_map.mp hm
      rw [updateManualObject_eq] at hv
      simp only [ManualObject.create, List.nil_append, List.mem_map] at hv
      obtain ⟨ps, _, rfl⟩ := hv
      rfl
    · rw [List.eq_of_mem_replicate hm] at hv
      simp [ManualObject.create] at hv
  · simp at hmo

theorem renderedState_billboard_colour (h : Host D F M) (msg : Paths D) (T : M)
    (s : PathsDisplay F) (N j : Nat) :
    ∀ billboard_line ∈ (renderedState h msg T s N j).billboard_lines_,
      ∀ point ∈ billboard_line.points,
        point.colour
          = { r := (h.getOgreColor s.color_property_.value).r
              g := (h.getOgreColor s.color_property_.value).g
              b := (h.getOgreColor s.color_property_.value).b
              a := s.alpha_property_.value } := by
  intro b hb pt hpt
  simp only [renderedState] at hb
  split_ifs at hb
  · rcases List.mem_append.mp hb with hm | hm
    · obtain ⟨p, _, rfl⟩ := List.mem_map.mp hm
      rw [updateBillBoardLine_eq] at hpt
      simp only [BillboardLine.create, List.nil_append, List.mem_map] at hpt
      obtain ⟨ps, _, rfl⟩ := hpt
      rfl
    · rw [List.eq_of_mem_replicate hm] at hpt
      simp [BillboardLine.create] at hpt
  · simp at hb

theorem renderedState_drawn (h : Host D F M) (msg : Paths D) (T : M) (s : PathsDisplay F)
    (N j i : Nat) (p : Path D) (hij : i < j) (hp : msg.paths[i]? = some p) :
    (s.style_property_.value = LINES →
      ∃ manual_object,
        (renderedState h msg T s N j).manual_objects_[i]? = some manual_object
        ∧ manual_object.vertices
            = p.poses.map (fun pose_stamped =>
                { position := h.mulMV T (h.pointMsgToOgre pose_stamped.pose.position)
                  colour := some { r := (h.getOgreColor s.color_property_.value).r
                                   g := (h.getOgreColor s.color_property_.value).g
                                   b := (h.getOgreColor s.color_property_.value).b
                                   a := s.alpha_property_.value } }))
    ∧ (s.style_property_.value = BILLBOARDS →
      ∃ billboard_line,
        (renderedState h msg T s N j).billboard_lines_[i]? = some billboard_line
        ∧ billboard_line.points
            = p.poses.map (fun pose_stamped =>
                { position := h.mulMV T (h.pointMsgToOgre pose_stamped.pose.position)
                  colour := { r := (h.getOgreColor s.color_property_.value).r
                              g := (h.getOgreColor s.color_property_.value).g
                              b := (h.getOgreColor s.color_property_.value).b
                              a := s.alpha_property_.value } })) := by
  refine ⟨?_, ?_⟩
  · intro h1
    refine ⟨updateManualObject h s ManualObject.create p T, ?_, ?_⟩
    · simp only [renderedState, h1, if_true]
      exact prefix_getElem?_lt _ _ _ _ _ _ p hij hp
    · rw [updateManualObject_eq]
      simp [ManualObject.create]
  · intro h2
    refine ⟨updateBillBoardLine h s BillboardLine.create p T, ?_, ?_⟩
    · simp only [renderedState, h2, if_true]
      exact prefix_getElem?_lt _ _ _ _ _ _ p hij hp
    · rw [updateBillBoardLine_eq]
      simp [BillboardLine.create]

/-- C7: processMessage returns, and afterwards (1) every vertex of every manual object and
every point of every billboard line carries one colour, the red, green and blue of the Color
property with the value of the Alpha property as alpha, and (2) every path that is rendered
(the transform lookup gives T and the path and all paths before it have valid floats) is drawn
in that colour: the object at its index, in LINES style the manual object and in BILLBOARDS
style the billboard line, holds exactly one point per pose, in pose order, the point of a pose
being T applied to its position together with that colour. -/
theorem processMessage_colour (h : Host D F M) (msg : Paths D) (s : PathsDisplay F)
    (hn : msg.paths.length < 2 ^ 31)
    (hk0 : 1 ≤ s.buffer_length_property_.value) (hk1 : s.buffer_length_property_.value < 2 ^ 31) :
    ∃ s',
      processMessage h msg s = some s'
      ∧ (∀ manual_object ∈ s'.manual_objects_, ∀ vertex ∈ manual_object.vertices,
          vertex.colour
            = some { r := (h.getOgreColor s.color_property_.value).r
                     g := (h.getOgreColor s.color_property_.value).g
                     b := (h.getOgreColor s.color_property_.value).b
                     a := s.alpha_property_.value })
      ∧ (∀ billboard_line ∈ s'.billboard_lines_, ∀ point ∈ billboard_line.points,
          point.colour
            = { r := (h.getOgreColor s.color_property_.value).r
                g := (h.getOgreColor s.color_property_.value).g
                b := (h.getOgreColor s.color_property_.value).b
                a := s.alpha_property_.value })
      ∧ (∀ (pos : Vector3 F) (ori : Quaternion F),
          h.getTransform msg.header = some (pos, ori) →
          ∀ (i : Nat) (p : Path D), msg.paths[i]? = some p →
          (∀ (i' : Nat) (p' : Path D), i' ≤ i → msg.paths[i']? = some p' →
            validateFloats h p' = true) →
          (s.style_property_.value = LINES →
            ∃ manual_object,
              s'.manual_objects_[i]? = some manual_object
              ∧ manual_object.vertices
                  = p.poses.map (fun pose_stamped =>
                      { position := h.mulMV (transformOf h pos ori)
                          (h.pointMsgToOgre pose_stamped.pose.position)
                        colour := some { r := (h.getOgreColor s.color_property_.value).r
                                         g := (h.getOgreColor s.color_property_.value).g
                                         b := (h.getOgreColor s.color_property_.value).b
                                         a := s.alpha_property_.value } }))
          ∧ (s.style_property_.value = BILLBOARDS →
            ∃ billboard_line,
              s'.billboard_lines_[i]? = some billboard_line
              ∧ billboard_line.points
                  = p.poses.map (fun pose_stamped =>
                      { position := h.mulMV (transformOf h pos ori)
                          (h.pointMsgToOgre pose_stamped.pose.position)
                        colour := { r := (h.getOgreColor s.color_property_.value).r
                                    g := (h.getOgreColor s.color_property_.value).g
                                    b := (h.getOgreColor s.color_property_.value).b
                                    a := s.alpha_property_.value } }))) := by
  cases ht : h.getTransform msg.header with
  | none =>
    obtain ⟨N, topic, transform, hres, _⟩ :=
      processMessage_lookup_fails h msg
        (h.matrixOfQuaternion { w := h.lit 1 1, x := h.lit 0 1, y := h.lit 0 1, z := h.lit 0 1 })
        s hk0 hk1 ht
    refine ⟨_, hres, renderedState_manual_colour h msg _ s N 0,
      renderedState_billboard_colour h msg _ s N 0, ?_⟩
    intro pos ori hc
    cases hc
  | some res =>
    obtain ⟨pos, ori⟩ := res
    rcases first_invalid (validateFloats h) msg.paths with hall | ⟨j, bad, hj, hbad, hpre⟩
    · refine ⟨_, processMessage_complete h msg s pos ori hn hk0 hk1 hall ht,
        renderedState_manual_colour h msg _ s _ _,
        renderedState_billboard_colour h msg _ s _ _, ?_⟩
      intro pos' ori' hc i p hp _
      cases hc
      exact renderedState_drawn h msg _ s _ _ i p (lt_length_of_getElem? hp) hp
    · refine ⟨_, processMessage_stops_at h msg s pos ori j bad hn hk0 hk1 hj hbad hpre ht,
        renderedState_manual_colour h msg _ s _ j,
        renderedState_billboard_colour h msg _ s _ j, ?_⟩
      intro pos' ori' hc i p hp hvalid
      cases hc
      have hij : i < j := by
        by_contra hge
        have := hvalid j bad (by omega) hj
        rw [hbad] at this
        cases this
      exact renderedState_drawn h msg _ s _ j i p hij hp

/-- Witness of C7: the message exMessageInvalid on a billboard display; its first path, the
only one before the invalid path, is drawn in the colour (25, 255, 0) with alpha 1. -/
theorem processMessage_colour_witness :
    ∃ s',
      processMessage intHost exMessageInvalid (exDisplay BILLBOARDS NONE 2) = some s'
      ∧ (∀ manual_object ∈ s'.manual_objects_, ∀ vertex ∈ manual_object.vertices,
          vertex.colour = some { r := 25, g := 255, b := 0, a := 1 })
      ∧ (∀ billboard_line ∈ s'.billboard_lines_, ∀ point ∈ billboard_line.points,
          point.colour = { r := 25, g := 255, b := 0, a := 1 })
      ∧ ∃ billboard_line,
          s'.billboard_lines_[0]? = some billboard_line
          ∧ billboard_line.points
              = [{ position := { x := 9, y := 20, z := 30 }
                   colour := { r := 25, g := 255, b := 0, a := 1 } }] :=
  match processMessage_colour intHost exMessageInvalid (exDisplay BILLBOARDS NONE 2)
      (by decide) (by decide) (by decide) with
  | ⟨s', hres, hmanual, hbillboard, hdrawn⟩ =>
    ⟨s', hres, hmanual, hbillboard,
      (hdrawn { x := 10, y := 20, z := 30 } { w := 0, x := 0, y := 0, z := 1 } rfl 0
        { header := exHeader, poses := [exPose 1 0 0] } rfl
        (fun i' p' hi' hp' => by
          have h0 : i' = 0 := by omega
          subst h0
          have hp0 : p' = { header := exHeader, poses := [exPose 1 0 0] } :=
            (Option.some.inj hp').symm
          subst hp0
          rfl)).2 rfl⟩

/-- C8: when the transform lookup succeeds and j is the least index of a path with invalid
floats, processMessage returns with the status "Topic" at Error; the objects at the indices
below j hold the transformed points of their paths, and every object and every marker chain
entry at an index from j on holds nothing. -/
theorem processMessage_invalid_path (h : Host D F M) (msg : Paths D) (s : PathsDisplay F)
    (pos : Vector3 F) (ori : Quaternion F) (j : Nat) (bad : Path D)
    (hn : msg.paths.length < 2 ^ 31)
    (hk0 : 1 ≤ s.buffer_length_property_.value) (hk1 : s.buffer_length_property_.value < 2 ^ 31)
    (hbad : msg.paths[j]? = some bad) (hinv : validateFloats h bad = false)
    (hv : ∀ (i : Nat) (p : Path D), i < j → msg.paths[i]? = some p → validateFloats h p = true)
    (ht : h.getTransform msg.header = some (pos, ori)) :
    ∃ s',
      processMessage h msg s = some s'
      ∧ s'.topic_status = some (StatusLevel.Error, invalidFloatsText)
      ∧ (∀ (i : Nat) (p : Path D), i < j → msg.paths[i]? = some p →
          (s.style_property_.value = LINES →
            ∃ manual_object, s'.manual_objects_[i]? = some manual_object
              ∧ manual_object.vertices.map Vertex.position
                  = p.poses.map (fun pose_stamped =>
                      h.mulMV (transformOf h pos ori)
                        (h.pointMsgToOgre pose_stamped.pose.position)))
          ∧ (s.style_property_.value = BILLBOARDS →
            ∃ billboard_line, s'.billboard_lines_[i]? = some billboard_line
              ∧ billboard_line.points.map BillboardPoint.position
                  = p.poses.map (fun pose_stamped =>
                      h.mulMV (transformOf h pos ori)
                        (h.pointMsgToOgre pose_stamped.pose.position))))
      ∧ (∀ (i : Nat), j ≤ i →
          (∀ manual_object, s'.manual_objects_[i]? = some manual_object →
            manual_object.vertices = [])
          ∧ (∀ billboard_line, s'.billboard_lines_[i]? = some billboard_line →
            billboard_line.points = [])
          ∧ (∀ axes_vect, s'.axes_chain_[i]? = some axes_vect → axes_vect = [])
          ∧ (∀ arrow_vect, s'.arrow_chain_[i]? = some arrow_vect → arrow_vect = [])) := by
  have hj : j ≤ msg.paths.length := le_of_lt (lt_length_of_getElem? hbad)
  refine ⟨_, processMessage_stops_at h msg s pos ori j bad hn hk0 hk1 hbad hinv hv ht, rfl,
    ?_, ?_⟩
  · intro i p hi hp
    refine ⟨?_, ?_⟩
    · intro h1
      refine ⟨updateManualObject h s ManualObject.create p (transformOf h pos ori), ?_, ?_⟩
      · simp only [renderedState, h1, if_true]
        exact prefix_getElem?_lt _ _ _ _ _ _ p hi hp
      · rw [updateManualObject_eq]
        simp [ManualObject.create]
    · intro h2
      refine ⟨updateBillBoardLine h s BillboardLine.create p (transformOf h pos ori), ?_, ?_⟩
      · simp only [renderedState, h2, if_true]
        exact prefix_getElem?_lt _ _ _ _ _ _ p hi hp
      · rw [updateBillBoardLine_eq]
        simp [BillboardLine.create]
  · intro i hi
    refine ⟨?_, ?_, ?_, ?_⟩
    · intro x hx
      simp only [renderedState] at hx
      split_ifs at hx
      · rw [prefix_getElem?_ge _ _ _ _ _ _ x hj hi hx]; rfl
      · simp at hx
    · intro x hx
      simp only [renderedState] at hx
      split_ifs at hx
      · rw [prefix_getElem?_ge _ _ _ _ _ _ x hj hi hx]; rfl
      · simp at hx
    · intro x hx
      simp only [renderedState] at hx
      split_ifs at hx
      · exact prefix_getElem?_ge _ _ _ _ _ _ x hj hi hx
      · exact replicate_getElem?_eq _ _ _ x hx
    · intro x hx
      simp only [renderedState] at hx
      split_ifs at hx
      · exact prefix_getElem?_ge _ _ _ _ _ _ x hj hi hx
      · exact replicate_getElem?_eq _ _ _ x hx

/-- C9: when the transform lookup for the header of the message fails, processMessage returns
and afterwards no manual object and no billboard line holds a point and no axes or arrow
exists; when moreover the first path of the message has valid floats, the missing-transform
status of the frame of the header is set. -/
theorem processMessage_missing_transform (h : Host D F M) (msg : Paths D) (s : PathsDisplay F)
    (hk0 : 1 ≤ s.buffer_length_property_.value) (hk1 : s.buffer_length_property_.value < 2 ^ 31)
    (ht : h.getTransform msg.header = none) :
    ∃ s',
      processMessage h msg s = some s'
      ∧ (∀ manual_object ∈ s'.manual_objects_, manual_object.vertices = [])
      ∧ (∀ billboard_line ∈ s'.billboard_lines_, billboard_line.points = [])
      ∧ (∀ axes_vect ∈ s'.axes_chain_, axes_vect = [])
      ∧ (∀ arrow_vect ∈ s'.arrow_chain_, arrow_vect = [])
      ∧ (msg.paths.length < 2 ^ 31 → ∀ p, msg.paths[0]? = some p → validateFloats h p = true →
          s'.transform_status
            = some (TransformStatus.MissingTransformToFixedFrame msg.header.frame_id)) := by
  obtain ⟨N, topic, transform, hres, hstatus⟩ :=
    processMessage_lookup_fails h msg
      (h.matrixOfQuaternion { w := h.lit 1 1, x := h.lit 0 1, y := h.lit 0 1, z := h.lit 0 1 })
      s hk0 hk1 ht
  refine ⟨_, hres, ?_, ?_, ?_, ?_, hstatus⟩
  · intro x hx
    simp only [renderedState, List.take_zero, List.map_nil, List.nil_append] at hx
    split_ifs at hx
    · rw [List.eq_of_mem_replicate hx]; rfl
    · simp at hx
  · intro x hx
    simp only [renderedState, List.take_zero, List.map_nil, List.nil_append] at hx
    split_ifs at hx
    · rw [List.eq_of_mem_replicate hx]; rfl
    · simp at hx
  · intro x hx
    simp only [renderedState, List.take_zero, List.map_nil, List.nil_append] at hx
    split_ifs at hx
    · exact List.eq_of_mem_replicate hx
    · exact List.eq_of_mem_replicate hx
  · intro x hx
    simp only [renderedState, List.take_zero, List.map_nil, List.nil_append] at hx
    split_ifs at hx
    · exact List.eq_of_mem_replicate hx
    · exact List.eq_of_mem_replicate hx

/-- Witness of C8: the second path of exMessageInvalid is the first invalid one. -/
theorem processMessage_invalid_path_witness :
    ∃ s',
      processMessage intHost exMessageInvalid (exDisplay LINES AXES 2) = some s'
      ∧ s'.topic_status = some (StatusLevel.Error, invalidFloatsText)
      ∧ s'.manual_objects_.map (fun manual_object => manual_object.vertices.length)
          = [1, 0, 0, 0, 0, 0] :=
  match processMessage_invalid_path intHost exMessageInvalid (exDisplay LINES AXES 2)
      { x := 10, y := 20, z := 30 } { w := 0, x := 0, y := 0, z := 1 } 1
      { header := exHeader, poses := [exPose 999 0 0] }
      (by decide) (by decide) (by decide) rfl rfl
      (fun i p hi hp => by
        have hi0 : i = 0 := by omega
        subst hi0
        have hp0 : p = { header := exHeader, poses := [exPose 1 0 0] } :=
          (Option.some.inj hp).symm
        subst hp0
        rfl)
      rfl with
  | ⟨s', hres, htopic, _⟩ => ⟨s', hres, htopic, by
      have hs : some s' = processMessage intHost exMessageInvalid (exDisplay LINES AXES 2) :=
        hres.symm
      have := congrArg
        (Option.map (fun st : PathsDisplay Int =>
          st.manual_objects_.map (fun manual_object => manual_object.vertices.length))) hs
      exact Option.some.inj this⟩

/-- Witness of C9: exMessageNowhere, whose frame cannot be looked up. -/
theorem processMessage_missing_transform_witness :
    ∃ s',
      processMessage intHost exMessageNowhere (exDisplay BILLBOARDS ARROWS 3) = some s'
      ∧ (∀ manual_object ∈ s'.manual_objects_, manual_object.vertices = [])
      ∧ (∀ billboard_line ∈ s'.billboard_lines_, billboard_line.points = [])
      ∧ (∀ axes_vect ∈ s'.axes_chain_, axes_vect = [])
      ∧ (∀ arrow_vect ∈ s'.arrow_chain_, arrow_vect = [])
      ∧ (exMessageNowhere.paths.length < 2 ^ 31 →
          ∀ p, exMessageNowhere.paths[0]? = some p → validateFloats intHost p = true →
          s'.transform_status = some (TransformStatus.MissingTransformToFixedFrame "nowhere")) :=
  processMessage_missing_transform intHost exMessageNowhere (exDisplay BILLBOARDS ARROWS 3)
    (by decide) (by decide) rfl

/-- C1, evaluated: with a buffer length of 2, after exMessage1 the display holds the path of
exMessage1 and one empty object; after exMessage1 and then exMessage2 it holds the path of
exMessage2 and one empty object, the path of exMessage1 being gone. -/
theorem buffer_holds_last_message_only :
    (processMessage intHost exMessage1 (exDisplay LINES NONE 2)).map
        (fun s => s.manual_objects_.map
          (fun manual_object => manual_object.vertices.map Vertex.position))
      = some [[{ x := 9, y := 20, z := 30 }], []]
    ∧ ((processMessage intHost exMessage1 (exDisplay LINES NONE 2)).bind
          (processMessage intHost exMessage2)).map
        (fun s => s.manual_objects_.map
          (fun manual_object => manual_object.vertices.map Vertex.position))
      = some [[{ x := 10, y := 19, z := 30 }, { x := 5, y := 15, z := 35 }], []] := by
  constructor <;> rfl

end Loop

end RvizLegged
